import Mathlib

/-!
Verification of the performance-adaptive orchestration core of the
Animation repository: the `PerformanceOptimizer`, the `AnimationSequencer`
and the `EffectManager` (effect registry).

Modelling conventions for the shallow embedding:
* JavaScript numbers are modelled as rationals (`ℚ`); the code under
  verification performs only additions, multiplications, divisions,
  comparisons and `Math.floor`/`Math.min`/`Math.max`, all of which are
  exact on the inputs exercised here.
* `Date.now()` is an explicit `now : ℚ` argument (milliseconds), threaded
  through every method that reads the clock.
* JavaScript `Map`s are association lists in insertion order: `set` on an
  existing key updates it in place (keeping its position), `set` on a new
  key appends, `delete` removes, and iteration follows the list order.
* Event emission and listener fan-out are modelled by recording events /
  counting notifications in the state, since listeners are opaque callbacks.
-/

namespace Animation

/-! ## Shared modelling of JavaScript values and insertion-ordered maps -/

/-- A JavaScript value as it occurs in the property bags of this code
base: a number, a string, a boolean, an array of numbers, or `undefined`
(the result of reading an absent object key). -/
inductive Val where
  | num (q : ℚ)
  | str (s : String)
  | bool (b : Bool)
  | arr (xs : List ℚ)
  | undef
  deriving Repr, DecidableEq

/-- Read a key from an object (`obj[key]`), `none` when absent.  Bags
model JavaScript objects, whose keys are unique. -/
def bagLookup (bag : List (String × Val)) (key : String) : Option Val :=
  (bag.find? (fun p => p.1 == key)).map Prod.snd

/-- The object spread `{...a, ...b}`: the keys of `a` in order with values
overridden by `b` where present, followed by the keys of `b` absent
from `a`, in order. -/
def bagMerge (a b : List (String × Val)) : List (String × Val) :=
  a.map (fun p => (p.1, (bagLookup b p.1).getD p.2))
    ++ b.filter (fun p => (bagLookup a p.1).isNone)

/-- Keys of `a` are contained in the keys of `b`. -/
def BagKeysSub (a b : List (String × Val)) : Prop :=
  ∀ k, (bagLookup a k).isSome = true → (bagLookup b k).isSome = true

/-- Whether `k` occurs in a list of keys. -/
def keyInList (ids : List String) (k : String) : Bool :=
  ids.any (fun c => c == k)

/-- `Map.get`. -/
def mapLookup {α : Type} (l : List (String × α)) (k : String) : Option α :=
  (l.find? (fun p => p.1 == k)).map Prod.snd

/-- `Map.set`: an existing key is updated in place (keeping its position
in iteration order); a new key is appended. -/
def mapSet {α : Type} (l : List (String × α)) (k : String) (v : α) : List (String × α) :=
  if l.any (fun p => p.1 == k) then l.map (fun p => if p.1 == k then (k, v) else p)
  else l ++ [(k, v)]

/-- `Map.delete`. -/
def mapDelete {α : Type} (l : List (String × α)) (k : String) : List (String × α) :=
  l.filter (fun p => !(p.1 == k))

/-! ## PerformanceOptimizer (src/unnamed/part_007) -/

/-- State of `PerformanceOptimizer`: the rolling window of instantaneous
FPS samples.  The fields `maxSamples = 60`, `targetFPS = 60`, `minFPS = 30`
are constants in the source and are modelled as definitions below. -/
structure PerformanceOptimizer where
  frameRates : List ℚ
  deriving Repr, DecidableEq

namespace PerformanceOptimizer

def maxSamples : ℕ := 60

def targetFPS : ℚ := 60

def minFPS : ℚ := 30

/-- `reset()` clears the sample buffer; the constructor calls it. -/
def reset (_s : PerformanceOptimizer) : PerformanceOptimizer := ⟨[]⟩

/-- The freshly constructed optimizer. -/
def init : PerformanceOptimizer := ⟨[]⟩

/-- `addFrameTime(deltaTime)`: push `1/deltaTime` and evict the oldest
sample (`Array.shift`, i.e. drop the head) when the buffer exceeds
`maxSamples`. -/
def addFrameTime (s : PerformanceOptimizer) (deltaTime : ℚ) : PerformanceOptimizer :=
  let fps := 1 / deltaTime
  let pushed := s.frameRates ++ [fps]
  if pushed.length > maxSamples then ⟨pushed.tail⟩ else ⟨pushed⟩

/-- `getAverageFPS()`: arithmetic mean of the buffer, `60` when empty. -/
def getAverageFPS (s : PerformanceOptimizer) : ℚ :=
  if s.frameRates.isEmpty then 60
  else s.frameRates.sum / s.frameRates.length

/-- `getPerformanceLevel()`: `min(1, max(0, (avgFPS - minFPS) / (targetFPS - minFPS)))`. -/
def getPerformanceLevel (s : PerformanceOptimizer) : ℚ :=
  min 1 (max 0 ((getAverageFPS s - minFPS) / (targetFPS - minFPS)))

/-- The body of `adjustParticleCount` as a function of the performance
level (the source reads the level once and branches on it). -/
def adjustCountForLevel (performanceLevel requestedCount : ℚ) : ℚ :=
  if performanceLevel < 3/10 then (⌊requestedCount * (1/4)⌋ : ℤ)
  else if performanceLevel < 3/5 then (⌊requestedCount * (1/2)⌋ : ℤ)
  else if performanceLevel < 4/5 then (⌊requestedCount * (3/4)⌋ : ℤ)
  else requestedCount

/-- `adjustParticleCount(requestedCount)`. -/
def adjustParticleCount (s : PerformanceOptimizer) (requestedCount : ℚ) : ℚ :=
  adjustCountForLevel (getPerformanceLevel s) requestedCount

/-- `adjustDelta(deltaTime)`: cap at `1/30`. -/
def adjustDelta (_s : PerformanceOptimizer) (deltaTime : ℚ) : ℚ :=
  min deltaTime (1/30)

/-- `getRecommendedLOD()`. -/
def getRecommendedLOD (s : PerformanceOptimizer) : ℕ :=
  let l := getPerformanceLevel s
  if l < 3/10 then 3 else if l < 3/5 then 2 else if l < 4/5 then 1 else 0

/-- `shouldSkipExpensiveOperations()`. -/
def shouldSkipExpensiveOperations (s : PerformanceOptimizer) : Bool :=
  getPerformanceLevel s < 2/5

/-- `getRenderScale()`. -/
def getRenderScale (s : PerformanceOptimizer) : ℚ :=
  let l := getPerformanceLevel s
  if l < 3/10 then 1/2 else if l < 3/5 then 3/4 else 1

end PerformanceOptimizer

/-! ## AnimationSequencer (src/AnimationSequencer.ts) -/

/-- A keyframe: a time (seconds), a property bag, and an optional easing
function. -/
structure AnimationKeyframe where
  time : ℚ
  properties : List (String × Val)
  easing : Option (ℚ → ℚ) := none

/-- A track: an id and its keyframes.  The optional `loop`/`duration`
fields exist on the interface but are never read by the code. -/
structure AnimationTrack where
  id : String
  keyframes : List AnimationKeyframe
  loop : Option Bool := none
  duration : Option ℚ := none

/-- A sequence.  The optional `onStart`/`onUpdate`/`onComplete` callbacks
are observationally equivalent to the `play`/`update`/`complete` events
recorded in the state, so they are modelled by those events. -/
structure AnimationSequence where
  id : String
  name : String
  description : String
  tracks : List AnimationTrack
  duration : ℚ
  loop : Bool

/-- Events emitted by the sequencer (`EventEmitter.emit` calls). -/
inductive SeqEvent where
  | sequenceAdded (id : String)
  | sequenceRemoved (id : String)
  | played (id : String)
  | paused
  | stopped
  | looped (id : String)
  | completed (id : String)
  | updated (progress : ℚ) (frameData : List (String × List (String × Val)))
  | speedChanged (speed : ℚ)
  | seeked (progress : ℚ)

/-- The sequencer's mutable fields, plus the trace of emitted events.
`startTime` and the `now` arguments below are in milliseconds
(`Date.now()`). -/
structure AnimationSequencer where
  sequences : List (String × AnimationSequence)
  currentSequence : Option AnimationSequence
  startTime : ℚ
  isPlaying : Bool
  speed : ℚ
  progress : ℚ
  events : List SeqEvent

namespace AnimationSequencer

/-- `addSequence(sequence)`. -/
def addSequence (s : AnimationSequencer) (sequence : AnimationSequence) : AnimationSequencer :=
  { s with sequences := mapSet s.sequences sequence.id sequence,
           events := s.events ++ [SeqEvent.sequenceAdded sequence.id] }

/-- `removeSequence(id)`. -/
def removeSequence (s : AnimationSequencer) (id : String) : AnimationSequencer :=
  if (mapLookup s.sequences id).isSome then
    { s with sequences := mapDelete s.sequences id,
             events := s.events ++ [SeqEvent.sequenceRemoved id] }
  else s

/-- `play(sequenceId?)`: an unknown id is a logged no-op; otherwise the
current sequence is (re)selected, `isPlaying` is set and the start-time
anchor is reset to now. -/
def play (s : AnimationSequencer) (sequenceId : Option String) (now : ℚ) : AnimationSequencer :=
  let selected : Option AnimationSequencer :=
    match sequenceId with
    | some sid =>
      match mapLookup s.sequences sid with
      | none => none
      | some sequence => some { s with currentSequence := some sequence }
    | none => some s
  match selected with
  | none => s
  | some s1 =>
    match s1.currentSequence with
    | none => s1
    | some sequence =>
      { s1 with isPlaying := true, startTime := now,
                events := s1.events ++ [SeqEvent.played sequence.id] }

/-- `pause()`. -/
def pause (s : AnimationSequencer) : AnimationSequencer :=
  { s with isPlaying := false, events := s.events ++ [SeqEvent.paused] }

/-- `stop()`. -/
def stop (s : AnimationSequencer) : AnimationSequencer :=
  { s with isPlaying := false, progress := 0, startTime := 0,
           events := s.events ++ [SeqEvent.stopped] }

/-- `setSpeed(speed)`: clamps to `[0.1, 5]`. -/
def setSpeed (s : AnimationSequencer) (speed : ℚ) : AnimationSequencer :=
  let clamped := max (1/10) (min 5 speed)
  { s with speed := clamped, events := s.events ++ [SeqEvent.speedChanged clamped] }

/-- The linear scan of `interpolateTrack`: find the first consecutive
keyframe pair `(kA, kB)` with `kA.time ≤ time ≤ kB.time`. -/
def scanKeyframes (a : AnimationKeyframe) (rest : List AnimationKeyframe) (time : ℚ) :
    Option (AnimationKeyframe × AnimationKeyframe) :=
  match rest with
  | [] => none
  | b :: bs =>
    if a.time ≤ time ∧ time ≤ b.time then some (a, b) else scanKeyframes b bs time

/-- The per-key interpolation loop of `interpolateTrack`: numbers are
interpolated linearly, number arrays element-wise, and any other
combination hard-switches at the eased midpoint.  (Arrays of unequal
length produce `NaN` tail entries in the source; `zipWith` truncates
instead — no claim concerns that case.) -/
def interpProps (prevK nextK : AnimationKeyframe) (easedT : ℚ) : List (String × Val) :=
  prevK.properties.map (fun p =>
    let nextValue := (bagLookup nextK.properties p.1).getD Val.undef
    match p.2, nextValue with
    | Val.num a, Val.num b => (p.1, Val.num (a + (b - a) * easedT))
    | Val.arr a, Val.arr b => (p.1, Val.arr (a.zipWith (fun x y => x + (y - x) * easedT) b))
    | pv, nv => (p.1, if easedT < 1/2 then pv else nv))

/-- `interpolateTrack(track, time)`. -/
def interpolateTrack (track : AnimationTrack) (time : ℚ) : List (String × Val) :=
  match track.keyframes with
  | [] => []
  | k0 :: rest =>
    let lastK := (k0 :: rest).getLast (by simp)
    let pair := (scanKeyframes k0 rest time).getD (k0, lastK)
    if time ≤ pair.1.time then pair.1.properties
    else if time ≥ pair.2.time then pair.2.properties
    else
      let dur := pair.2.time - pair.1.time
      let t := (time - pair.1.time) / dur
      let easedT := match pair.2.easing with
        | some e => e t
        | none => t
      interpProps pair.1 pair.2 easedT

/-- The tail of `update()`: resolve every track at
`progress × duration` and emit the `update` event (the `onUpdate`
callback observes the same progress value). -/
def emitUpdate (s : AnimationSequencer) (sequence : AnimationSequence) : AnimationSequencer :=
  let currentTime := s.progress * sequence.duration
  let frameData := sequence.tracks.map (fun track => (track.id, interpolateTrack track currentTime))
  { s with events := s.events ++ [SeqEvent.updated s.progress frameData] }

/-- `update()`: a no-op unless playing with a current sequence; computes
progress from the wall clock, handles looping/completion, then resolves
tracks.  On a loop wrap the anchor is reset to `now` and progress to `0`,
and track resolution still runs for this call; on completion the call
returns before track resolution. -/
def update (s : AnimationSequencer) (now : ℚ) : AnimationSequencer :=
  match s.isPlaying, s.currentSequence with
  | true, some sequence =>
    let elapsed := (now - s.startTime) * (1/1000) * s.speed
    let progress := elapsed / sequence.duration
    if progress ≥ 1 then
      if sequence.loop then
        emitUpdate { s with startTime := now, progress := 0,
                            events := s.events ++ [SeqEvent.looped sequence.id] } sequence
      else
        { s with progress := 1, isPlaying := false,
                 events := s.events ++ [SeqEvent.completed sequence.id] }
    else
      emitUpdate { s with progress := progress } sequence
  | _, _ => s

/-- `seek(progress)`: clamps to `[0,1]` and recomputes the anchor. -/
def seek (s : AnimationSequencer) (progress : ℚ) (now : ℚ) : AnimationSequencer :=
  match s.currentSequence with
  | none => s
  | some sequence =>
    let clamped := max 0 (min 1 progress)
    { s with progress := clamped,
             startTime := now - clamped * sequence.duration * 1000 / s.speed,
             events := s.events ++ [SeqEvent.seeked clamped] }

/-- `getProgress()`. -/
def getProgress (s : AnimationSequencer) : ℚ := s.progress

/-- `getIsPlaying()`. -/
def getIsPlaying (s : AnimationSequencer) : Bool := s.isPlaying

/-- Number of `loop` events in an event trace. -/
def loopCount (events : List SeqEvent) : ℕ :=
  (events.filter (fun e => match e with | SeqEvent.looped _ => true | _ => false)).length

/-- The `cosmic` default sequence. -/
def cosmicSequence : AnimationSequence :=
  { id := "cosmic", name := "Cosmic Journey",
    description := "Travel through space with stellar formations and cosmic phenomena",
    duration := 60, loop := true,
    tracks := [
      { id := "camera", keyframes := [
          ⟨0, [("position", Val.arr [0, 40, 80]), ("target", Val.arr [0, 10, 0])], none⟩,
          ⟨15, [("position", Val.arr [50, 60, 50]), ("target", Val.arr [20, 5, 20])], none⟩,
          ⟨30, [("position", Val.arr [-30, 80, 60]), ("target", Val.arr [-10, 15, 10])], none⟩,
          ⟨45, [("position", Val.arr [0, 100, 100]), ("target", Val.arr [0, 20, 0])], none⟩,
          ⟨60, [("position", Val.arr [0, 40, 80]), ("target", Val.arr [0, 10, 0])], none⟩] },
      { id := "particles", keyframes := [
          ⟨0, [("intensity", Val.num 1), ("count", Val.num 5000)], none⟩,
          ⟨20, [("intensity", Val.num (3/2)), ("count", Val.num 8000)], none⟩,
          ⟨40, [("intensity", Val.num 2), ("count", Val.num 10000)], none⟩,
          ⟨60, [("intensity", Val.num 1), ("count", Val.num 5000)], none⟩] },
      { id := "lighting", keyframes := [
          ⟨0, [("color", Val.str "#4466ff"), ("intensity", Val.num 1)], none⟩,
          ⟨30, [("color", Val.str "#6644ff"), ("intensity", Val.num (6/5))], none⟩,
          ⟨60, [("color", Val.str "#4466ff"), ("intensity", Val.num 1)], none⟩] }] }

/-- The `fire` default sequence. -/
def fireSequence : AnimationSequence :=
  { id := "fire", name := "Elemental Fire",
    description := "Intense fire effects with heat distortion and ember particles",
    duration := 45, loop := true,
    tracks := [
      { id := "camera", keyframes := [
          ⟨0, [("position", Val.arr [15, 25, 45]), ("target", Val.arr [0, 5, 0])], none⟩,
          ⟨15, [("position", Val.arr [30, 20, 30]), ("target", Val.arr [5, 8, 5])], none⟩,
          ⟨30, [("position", Val.arr [0, 35, 50]), ("target", Val.arr [0, 10, 0])], none⟩,
          ⟨45, [("position", Val.arr [15, 25, 45]), ("target", Val.arr [0, 5, 0])], none⟩] },
      { id := "fire_intensity", keyframes := [
          ⟨0, [("heat", Val.num 1), ("spread", Val.num 1)], none⟩,
          ⟨10, [("heat", Val.num (9/5)), ("spread", Val.num (3/2))], none⟩,
          ⟨25, [("heat", Val.num (11/5)), ("spread", Val.num 2)], none⟩,
          ⟨35, [("heat", Val.num (3/2)), ("spread", Val.num (6/5))], none⟩,
          ⟨45, [("heat", Val.num 1), ("spread", Val.num 1)], none⟩] }] }

/-- The `water` default sequence. -/
def waterSequence : AnimationSequence :=
  { id := "water", name := "Aquatic Flow",
    description := "Fluid dynamics with waves, splashes, and underwater effects",
    duration := 50, loop := true,
    tracks := [
      { id := "camera", keyframes := [
          ⟨0, [("position", Val.arr [-20, 20, 60]), ("target", Val.arr [0, 0, 0])], none⟩,
          ⟨20, [("position", Val.arr [40, 15, 40]), ("target", Val.arr [10, -5, 10])], none⟩,
          ⟨40, [("position", Val.arr [-10, 30, 80]), ("target", Val.arr [-5, 5, -5])], none⟩,
          ⟨50, [("position", Val.arr [-20, 20, 60]), ("target", Val.arr [0, 0, 0])], none⟩] },
      { id := "water_flow", keyframes := [
          ⟨0, [("speed", Val.num 1), ("turbulence", Val.num (1/2))], none⟩,
          ⟨15, [("speed", Val.num (3/2)), ("turbulence", Val.num (4/5))], none⟩,
          ⟨30, [("speed", Val.num 2), ("turbulence", Val.num (6/5))], none⟩,
          ⟨50, [("speed", Val.num 1), ("turbulence", Val.num (1/2))], none⟩] }] }

/-- The `crystal` default sequence. -/
def crystalSequence : AnimationSequence :=
  { id := "crystal", name := "Crystal Resonance",
    description := "Geometric crystal formations with refractive light effects",
    duration := 40, loop := true,
    tracks := [
      { id := "camera", keyframes := [
          ⟨0, [("position", Val.arr [30, 35, 50]), ("target", Val.arr [0, 15, 0])], none⟩,
          ⟨20, [("position", Val.arr [60, 25, 30]), ("target", Val.arr [20, 10, 10])], none⟩,
          ⟨40, [("position", Val.arr [30, 35, 50]), ("target", Val.arr [0, 15, 0])], none⟩] },
      { id := "crystal_growth", keyframes := [
          ⟨0, [("scale", Val.num (4/5)), ("energy", Val.num 1)], none⟩,
          ⟨10, [("scale", Val.num (6/5)), ("energy", Val.num (3/2))], none⟩,
          ⟨20, [("scale", Val.num (3/2)), ("energy", Val.num 2)], none⟩,
          ⟨30, [("scale", Val.num (11/10)), ("energy", Val.num (13/10))], none⟩,
          ⟨40, [("scale", Val.num (4/5)), ("energy", Val.num 1)], none⟩] }] }

/-- The `plasma` default sequence. -/
def plasmaSequence : AnimationSequence :=
  { id := "plasma", name := "Plasma Storm",
    description := "High-energy electromagnetic fields and plasma discharge",
    duration := 35, loop := true,
    tracks := [
      { id := "camera", keyframes := [
          ⟨0, [("position", Val.arr [0, 60, 100]), ("target", Val.arr [0, 20, 0])], none⟩,
          ⟨12, [("position", Val.arr [80, 40, 60]), ("target", Val.arr [30, 25, 20])], none⟩,
          ⟨25, [("position", Val.arr [-60, 80, 80]), ("target", Val.arr [-20, 30, 20])], none⟩,
          ⟨35, [("position", Val.arr [0, 60, 100]), ("target", Val.arr [0, 20, 0])], none⟩] },
      { id := "plasma_energy", keyframes := [
          ⟨0, [("field_strength", Val.num 1), ("frequency", Val.num 8)], none⟩,
          ⟨8, [("field_strength", Val.num (5/2)), ("frequency", Val.num 15)], none⟩,
          ⟨18, [("field_strength", Val.num 3), ("frequency", Val.num 20)], none⟩,
          ⟨28, [("field_strength", Val.num (9/5)), ("frequency", Val.num 12)], none⟩,
          ⟨35, [("field_strength", Val.num 1), ("frequency", Val.num 8)], none⟩] }] }

/-- `initializeDefaultSequences()`, called by the constructor. -/
def initializeDefaultSequences (s : AnimationSequencer) : AnimationSequencer :=
  [cosmicSequence, fireSequence, waterSequence, crystalSequence,
   plasmaSequence].foldl addSequence s

/-- A freshly constructed `AnimationSequencer`. -/
def initialSequencer : AnimationSequencer :=
  initializeDefaultSequences
    { sequences := [], currentSequence := none, startTime := 0,
      isPlaying := false, speed := 1, progress := 0, events := [] }

/-- A minimal looping sequence of duration 10 seconds, used to exercise
the loop and pause behaviour on concrete runs. -/
def seq10 : AnimationSequence :=
  { id := "seq10", name := "Loop Test", description := "looping test sequence",
    tracks := [], duration := 10, loop := true }

/-- A sequencer that has registered `seq10` and started playing it at
time 0. -/
def loopDemoStart : AnimationSequencer :=
  play (addSequence initialSequencer seq10) (some "seq10") 0

/-- `loopDemoStart` updated once at 5 seconds: progress one half. -/
def pauseDemo : AnimationSequencer := update loopDemoStart 5000

/-- The last keyframe of a non-empty keyframe list. -/
def lastKeyframe (k0 : AnimationKeyframe) (rest : List AnimationKeyframe) :
    AnimationKeyframe :=
  (k0 :: rest).getLast (by simp)

/-- A two-keyframe track used to witness the interpolation boundary
behaviour. -/
def demoTrack : AnimationTrack :=
  { id := "x", keyframes := [⟨0, [("x", Val.num 0)], none⟩, ⟨10, [("x", Val.num 100)], none⟩] }

end AnimationSequencer

/-! ## EffectManager (src/SceneManager.ts, EffectManager part) -/

/-- `Effect['category']`. -/
inductive Category where
  | particles
  | geometry
  | postprocessing
  | environment
  deriving Repr, DecidableEq

/-- `Effect['performanceImpact']` (also the target levels of
`getRecommendedSettings`). -/
inductive Impact where
  | low
  | medium
  | high
  deriving Repr, DecidableEq

/-- An immutable catalog entry.  The optional `dependencies`,
`conflictsWith` and `parameters` fields default to empty, which is
observationally equivalent to their absence in every place the code
reads them. -/
structure Effect where
  id : String
  name : String
  description : String
  category : Category
  performanceImpact : Impact
  dependencies : List String := []
  conflictsWith : List String := []
  parameters : List (String × Val) := []
  deriving Repr, DecidableEq

/-- The mutable per-active-effect state. -/
structure EffectState where
  effect : Effect
  enabled : Bool
  intensity : ℚ
  parameters : List (String × Val)
  lastUpdate : ℚ
  deriving Repr, DecidableEq

/-- State of an `EffectManager`: the catalog, the active map, the global
intensity, and the number of `notifyListeners()` fan-outs performed so far
(each fan-out synchronously invokes every registered subscriber once). -/
structure EffectManager where
  effects : List (String × Effect)
  activeEffects : List (String × EffectState)
  globalIntensity : ℚ
  notifications : ℕ
  deriving Repr, DecidableEq

/-- `Math.max(0, Math.min(2, v))`, the clamp used for intensities. -/
def clamp02 (v : ℚ) : ℚ := max 0 (min 2 v)

namespace EffectManager

/-- `notifyListeners()`. -/
def notifyListeners (s : EffectManager) : EffectManager :=
  { s with notifications := s.notifications + 1 }

/-- `isEffectActive(effectId)`. -/
def isEffectActive (s : EffectManager) (effectId : String) : Bool :=
  (mapLookup s.activeEffects effectId).isSome

/-- `disableEffect(effectId)`: returns the success flag and the new state. -/
def disableEffect (s : EffectManager) (effectId : String) : Bool × EffectManager :=
  if (mapLookup s.activeEffects effectId).isSome then
    (true, notifyListeners { s with activeEffects := mapDelete s.activeEffects effectId })
  else (false, s)

/-- `enableEffect(effectId, intensity = 1.0)`: fails softly on an unknown
id or a missing dependency; otherwise disables every currently active
conflicting effect (each such disable notifying subscribers), stores a
fresh `EffectState` with clamped intensity and a copy of the catalog
default parameters, and notifies subscribers once more. -/
def enableEffect (s : EffectManager) (effectId : String) (intensity : ℚ) (now : ℚ) :
    Bool × EffectManager :=
  match mapLookup s.effects effectId with
  | none => (false, s)
  | some effect =>
    let missingDeps := effect.dependencies.filter (fun dep => !(isEffectActive s dep))
    if missingDeps.length > 0 then (false, s)
    else
      let s1 := effect.conflictsWith.foldl (fun st conflictId =>
          if isEffectActive st conflictId then (disableEffect st conflictId).2 else st) s
      let effectState : EffectState :=
        { effect := effect, enabled := true, intensity := clamp02 intensity,
          parameters := effect.parameters, lastUpdate := now }
      (true, notifyListeners
        { s1 with activeEffects := mapSet s1.activeEffects effectId effectState })

/-- `toggleEffect(effectId, intensity?)`. -/
def toggleEffect (s : EffectManager) (effectId : String) (intensity : Option ℚ) (now : ℚ) :
    Bool × EffectManager :=
  if isEffectActive s effectId then disableEffect s effectId
  else enableEffect s effectId (intensity.getD 1) now

/-- `setEffectIntensity(effectId, intensity)`. -/
def setEffectIntensity (s : EffectManager) (effectId : String) (intensity : ℚ) (now : ℚ) :
    Bool × EffectManager :=
  match mapLookup s.activeEffects effectId with
  | some effectState =>
    let updated : EffectState :=
      { effectState with intensity := clamp02 intensity, lastUpdate := now }
    (true, notifyListeners { s with activeEffects := mapSet s.activeEffects effectId updated })
  | none => (false, s)

/-- `setEffectParameters(effectId, parameters)`: shallow-merges over the
live parameter bag. -/
def setEffectParameters (s : EffectManager) (effectId : String)
    (parameters : List (String × Val)) (now : ℚ) : Bool × EffectManager :=
  match mapLookup s.activeEffects effectId with
  | some effectState =>
    let updated : EffectState :=
      { effectState with parameters := bagMerge effectState.parameters parameters,
                         lastUpdate := now }
    (true, notifyListeners { s with activeEffects := mapSet s.activeEffects effectId updated })
  | none => (false, s)

/-- `setGlobalIntensity(intensity)`. -/
def setGlobalIntensity (s : EffectManager) (intensity : ℚ) : EffectManager :=
  notifyListeners { s with globalIntensity := clamp02 intensity }

/-- `getGlobalIntensity()`. -/
def getGlobalIntensity (s : EffectManager) : ℚ := s.globalIntensity

/-- `getEffectiveIntensity(effectId)`. -/
def getEffectiveIntensity (s : EffectManager) (effectId : String) : ℚ :=
  match mapLookup s.activeEffects effectId with
  | some effectState => effectState.intensity * s.globalIntensity
  | none => 0

/-- `enableAllEffects()`: enables every catalog effect with intensity 1. -/
def enableAllEffects (s : EffectManager) (now : ℚ) : EffectManager :=
  s.effects.foldl (fun st p => (enableEffect st p.1 1 now).2) s

/-- `disableAllEffects()`. -/
def disableAllEffects (s : EffectManager) : EffectManager :=
  notifyListeners { s with activeEffects := [] }

/-- `getRecommendedSettings(targetPerformance)`. -/
def getRecommendedSettings (s : EffectManager) (targetPerformance : Impact) : List String :=
  s.effects.foldl (fun recommended p =>
    match targetPerformance with
    | Impact.low =>
      if p.2.performanceImpact = Impact.low then recommended ++ [p.1] else recommended
    | Impact.medium =>
      if p.2.performanceImpact ≠ Impact.high then recommended ++ [p.1] else recommended
    | Impact.high => recommended ++ [p.1]) []

/-- `applyRecommendedSettings(targetPerformance)`. -/
def applyRecommendedSettings (s : EffectManager) (targetPerformance : Impact) (now : ℚ) :
    EffectManager :=
  let s1 := disableAllEffects s
  (getRecommendedSettings s1 targetPerformance).foldl
    (fun st id => (enableEffect st id 1 now).2) s1

end EffectManager

/-- One entry of the exported `activeEffects` record. -/
structure EffectConfigEntry where
  intensity : ℚ
  parameters : Option (List (String × Val))
  deriving Repr, DecidableEq

/-- The plain data structure produced by `exportConfiguration` and
consumed by `importConfiguration`; fields are optional because each is
guarded by a truthiness check when read back in. -/
structure EffectConfiguration where
  globalIntensity : Option ℚ
  activeEffects : Option (List (String × EffectConfigEntry))
  deriving Repr, DecidableEq

namespace EffectManager

/-- `exportConfiguration()`. -/
def exportConfiguration (s : EffectManager) : EffectConfiguration :=
  { globalIntensity := some s.globalIntensity,
    activeEffects := some (s.activeEffects.map (fun p =>
      (p.1, ⟨p.2.intensity, some p.2.parameters⟩))) }

/-- One iteration of the `importConfiguration` loop over
`config.activeEffects`: enable the effect with the saved intensity and,
when that succeeds and saved parameters exist, merge them in. -/
def importEntry (now : ℚ) (st : EffectManager) (p : String × EffectConfigEntry) :
    EffectManager :=
  let res := enableEffect st p.1 p.2.intensity now
  if res.1 then
    match p.2.parameters with
    | some params => (setEffectParameters res.2 p.1 params now).2
    | none => res.2
  else res.2

/-- `importConfiguration(config)`. -/
def importConfiguration (s : EffectManager) (config : EffectConfiguration) (now : ℚ) :
    EffectManager :=
  let s1 := disableAllEffects s
  let s2 := match config.globalIntensity with
    | some g => setGlobalIntensity s1 g
    | none => s1
  match config.activeEffects with
  | none => s2
  | some entries => entries.foldl (importEntry now) s2

end EffectManager

/-! ### The default effect catalog (`initializeDefaultEffects`) -/

/-- Default effect `fire`. -/
def fireEffect : Effect :=
  { id := "fire", name := "Fire Particles",
    description := "Realistic fire simulation with heat distortion",
    category := Category.particles, performanceImpact := Impact.high,
    parameters := [("temperature", Val.num 1), ("spread", Val.num 1),
                   ("turbulence", Val.num (4/5))] }

/-- Default effect `water`. -/
def waterEffect : Effect :=
  { id := "water", name := "Water Particles",
    description := "Fluid dynamics with splash and flow effects",
    category := Category.particles, performanceImpact := Impact.medium,
    parameters := [("viscosity", Val.num (1/10)), ("surfaceTension", Val.num (1/2)),
                   ("flowSpeed", Val.num 1)] }

/-- Default effect `snow`. -/
def snowEffect : Effect :=
  { id := "snow", name := "Snow Particles",
    description := "Gentle falling snow with wind patterns",
    category := Category.particles, performanceImpact := Impact.low,
    parameters := [("windStrength", Val.num (1/2)), ("flakeSize", Val.num 1),
                   ("density", Val.num 1)] }

/-- Default effect `cosmic`. -/
def cosmicEffect : Effect :=
  { id := "cosmic", name := "Cosmic Particles",
    description := "Stellar dust, star formation, and cosmic phenomena",
    category := Category.particles, performanceImpact := Impact.high,
    parameters := [("starDensity", Val.num (1/2)), ("nebulaIntensity", Val.num (4/5)),
                   ("cosmicRayFrequency", Val.num (3/10))] }

/-- Default effect `plasma`. -/
def plasmaEffect : Effect :=
  { id := "plasma", name := "Plasma Particles",
    description := "Electromagnetic plasma fields and discharge",
    category := Category.particles, performanceImpact := Impact.high,
    parameters := [("electricField", Val.num 2), ("magneticStrength", Val.num (3/2)),
                   ("plasmaFrequency", Val.num 10)] }

/-- Default effect `floating_islands`. -/
def floatingIslandsEffect : Effect :=
  { id := "floating_islands", name := "Floating Islands",
    description := "Mystical floating landmasses with vegetation",
    category := Category.geometry, performanceImpact := Impact.medium,
    parameters := [("islandCount", Val.num 6), ("vegetationDensity", Val.num (7/10)),
                   ("floatAmplitude", Val.num 2)] }

/-- Default effect `crystals`. -/
def crystalsEffect : Effect :=
  { id := "crystals", name := "Crystal Formations",
    description := "Dynamic crystal clusters with refractive properties",
    category := Category.geometry, performanceImpact := Impact.medium,
    parameters := [("growthSpeed", Val.num (1/2)), ("refractionIndex", Val.num (19/20)),
                   ("energyLevel", Val.num 1)] }

/-- Default effect `energy_orbs`. -/
def energyOrbsEffect : Effect :=
  { id := "energy_orbs", name := "Energy Orbs",
    description := "Electromagnetic energy spheres with particle trails",
    category := Category.geometry, performanceImpact := Impact.medium,
    parameters := [("orbCount", Val.num 15), ("trailLength", Val.num 100),
                   ("electricalForce", Val.num 1)] }

/-- Default effect `waves`. -/
def wavesEffect : Effect :=
  { id := "waves", name := "Wave System",
    description := "Advanced wave simulation with interference patterns",
    category := Category.geometry, performanceImpact := Impact.high,
    parameters := [("waveHeight", Val.num 2), ("frequency", Val.num (3/100)),
                   ("interference", Val.bool true)] }

/-- Default effect `fractal_trees`. -/
def fractalTreesEffect : Effect :=
  { id := "fractal_trees", name := "Fractal Trees",
    description := "Procedurally generated tree structures",
    category := Category.geometry, performanceImpact := Impact.medium,
    parameters := [("complexity", Val.num 5), ("branchingFactor", Val.num (4/5)),
                   ("windEffect", Val.num (1/2))] }

/-- Default effect `geometric_shapes`. -/
def geometricShapesEffect : Effect :=
  { id := "geometric_shapes", name := "Geometric Shapes",
    description := "Animated mathematical forms and patterns",
    category := Category.geometry, performanceImpact := Impact.low,
    parameters := [("morphingSpeed", Val.num 1), ("geometricComplexity", Val.num 1),
                   ("rotationSpeed", Val.num (1/2))] }

/-- Default effect `liquid`. -/
def liquidEffect : Effect :=
  { id := "liquid", name := "Liquid Simulation",
    description := "Advanced fluid dynamics with metaballs",
    category := Category.geometry, performanceImpact := Impact.high,
    parameters := [("viscosity", Val.num (1/10)), ("surfaceTension", Val.num (4/5)),
                   ("particleDensity", Val.num 1)] }

/-- Default effect `bloom`. -/
def bloomEffect : Effect :=
  { id := "bloom", name := "Bloom Effect",
    description := "Luminous glow around bright objects",
    category := Category.postprocessing, performanceImpact := Impact.medium,
    parameters := [("strength", Val.num 1), ("threshold", Val.num (3/10)),
                   ("radius", Val.num (4/5))] }

/-- Default effect `chromatic_aberration`. -/
def chromaticAberrationEffect : Effect :=
  { id := "chromatic_aberration", name := "Chromatic Aberration",
    description := "Color separation effect for artistic distortion",
    category := Category.postprocessing, performanceImpact := Impact.low,
    parameters := [("intensity", Val.num (1/500)), ("distortion", Val.num 1)] }

/-- Default effect `film_grain`. -/
def filmGrainEffect : Effect :=
  { id := "film_grain", name := "Film Grain",
    description := "Vintage film noise and scanlines",
    category := Category.postprocessing, performanceImpact := Impact.low,
    parameters := [("grainIntensity", Val.num (3/10)), ("scanlineIntensity", Val.num (2/5))] }

/-- Default effect `kaleidoscope`. -/
def kaleidoscopeEffect : Effect :=
  { id := "kaleidoscope", name := "Kaleidoscope",
    description := "Symmetrical pattern reflection effect",
    category := Category.postprocessing, performanceImpact := Impact.medium,
    parameters := [("sides", Val.num 6), ("rotation", Val.num (1/10)),
                   ("radius", Val.num (1/2))] }

/-- Default effect `pixelation`. -/
def pixelationEffect : Effect :=
  { id := "pixelation", name := "Pixelation",
    description := "Retro pixel art effect",
    category := Category.postprocessing, performanceImpact := Impact.low,
    parameters := [("pixelSize", Val.num 4)] }

/-- Default effect `vortex`. -/
def vortexEffect : Effect :=
  { id := "vortex", name := "Vortex Distortion",
    description := "Swirling distortion effect",
    category := Category.postprocessing, performanceImpact := Impact.medium,
    parameters := [("strength", Val.num 1), ("center", Val.arr [1/2, 1/2])] }

/-- Default effect `procedural_terrain`. -/
def proceduralTerrainEffect : Effect :=
  { id := "procedural_terrain", name := "Procedural Terrain",
    description := "Dynamic terrain generation with real-time deformation",
    category := Category.environment, performanceImpact := Impact.high,
    parameters := [("complexity", Val.num 64), ("deformation", Val.num 1),
                   ("textureBlending", Val.bool true)] }

/-- Default effect `audio_reactive` — the only catalog entry with a
dependency, on `audio_context`, which is not itself a catalog id. -/
def audioReactiveEffect : Effect :=
  { id := "audio_reactive", name := "Audio Reactive",
    description := "Visual effects synchronized to audio frequency data",
    category := Category.environment, performanceImpact := Impact.medium,
    dependencies := ["audio_context"],
    parameters := [("sensitivity", Val.num 1), ("frequencyRange", Val.arr [20, 20000]),
                   ("visualizerType", Val.str "spectrum")] }

/-- The `defaultEffects` array of `initializeDefaultEffects`. -/
def defaultEffects : List Effect :=
  [fireEffect, waterEffect, snowEffect, cosmicEffect, plasmaEffect,
   floatingIslandsEffect, crystalsEffect, energyOrbsEffect, wavesEffect,
   fractalTreesEffect, geometricShapesEffect, liquidEffect, bloomEffect,
   chromaticAberrationEffect, filmGrainEffect, kaleidoscopeEffect,
   pixelationEffect, vortexEffect, proceduralTerrainEffect, audioReactiveEffect]

namespace EffectManager

/-- `initializeDefaultEffects()`, called by the constructor. -/
def initializeDefaultEffects (s : EffectManager) : EffectManager :=
  { s with effects := defaultEffects.foldl (fun m e => mapSet m e.id e) s.effects }

/-- A freshly constructed `EffectManager`. -/
def initialEffectManager : EffectManager :=
  initializeDefaultEffects
    { effects := [], activeEffects := [], globalIntensity := 1, notifications := 0 }

/-- One call of the public mutating API, with its clock arguments made
explicit. -/
inductive EffectOp where
  | enable (id : String) (intensity : ℚ) (now : ℚ)
  | disable (id : String)
  | toggle (id : String) (intensity : Option ℚ) (now : ℚ)
  | setIntensity (id : String) (value : ℚ) (now : ℚ)
  | setParams (id : String) (parameters : List (String × Val)) (now : ℚ)
  | setGlobal (value : ℚ)
  | enableAll (now : ℚ)
  | disableAll
  | applyRecommended (target : Impact) (now : ℚ)
  | importCfg (config : EffectConfiguration) (now : ℚ)

/-- Apply one public API call to the state. -/
def applyOp (s : EffectManager) : EffectOp → EffectManager
  | EffectOp.enable id i now => (enableEffect s id i now).2
  | EffectOp.disable id => (disableEffect s id).2
  | EffectOp.toggle id i now => (toggleEffect s id i now).2
  | EffectOp.setIntensity id v now => (setEffectIntensity s id v now).2
  | EffectOp.setParams id p now => (setEffectParameters s id p now).2
  | EffectOp.setGlobal v => setGlobalIntensity s v
  | EffectOp.enableAll now => enableAllEffects s now
  | EffectOp.disableAll => disableAllEffects s
  | EffectOp.applyRecommended t now => applyRecommendedSettings s t now
  | EffectOp.importCfg c now => importConfiguration s c now

/-- Run a sequence of public API calls on a freshly constructed manager. -/
def runOps (ops : List EffectOp) : EffectManager :=
  ops.foldl applyOp initialEffectManager

/-- A registry state is reachable when some sequence of public API calls
produces it from a freshly constructed manager. -/
def Reachable (s : EffectManager) : Prop :=
  ∃ ops : List EffectOp, runOps ops = s

/-- Invariant of one active-map entry: its stored effect is the catalog
entry for its key, that effect has no dependencies, its intensity is a
clamp fixed point, and its parameter bag still covers all default keys. -/
def GoodEntry (p : String × EffectState) : Prop :=
  mapLookup initialEffectManager.effects p.1 = some p.2.effect ∧
  p.2.effect.dependencies = [] ∧
  clamp02 p.2.intensity = p.2.intensity ∧
  BagKeysSub p.2.effect.parameters p.2.parameters

/-- Invariant of a registry state: the catalog is the default one, the
global intensity is a clamp fixed point, active keys are distinct, and
every active entry is good. -/
def GoodState (s : EffectManager) : Prop :=
  s.effects = initialEffectManager.effects ∧
  clamp02 s.globalIntensity = s.globalIntensity ∧
  (s.activeEffects.map Prod.fst).Nodup ∧
  ∀ p ∈ s.activeEffects, GoodEntry p

/-- The active-map entry produced by re-importing an exported entry `p`:
the catalog effect, the re-clamped intensity, and the saved parameters
merged over the catalog defaults. -/
def importedState (now : ℚ) (p : String × EffectState) : EffectState :=
  { effect := p.2.effect, enabled := true, intensity := clamp02 p.2.intensity,
    parameters := bagMerge p.2.effect.parameters p.2.parameters, lastUpdate := now }

/-- The `EffectState` freshly constructed by a successful `enableEffect`. -/
def enabledState (e : Effect) (i now : ℚ) : EffectState :=
  { effect := e, enabled := true, intensity := clamp02 i,
    parameters := e.parameters, lastUpdate := now }

/-- A state with the `fire` effect enabled and a parameter override
applied, used to witness that re-enabling resets the bag. -/
def fireOverridden : EffectManager :=
  (setEffectParameters (enableEffect initialEffectManager "fire" 1 0).2 "fire"
    [("temperature", Val.num 5)] 0).2

/-- A small reachable state used to witness the export/import
round-trip. -/
def demoState : EffectManager := runOps [EffectOp.enable "fire" (3/2) 0]

end EffectManager

/-- A test effect with no conflicts. -/
def glowEffect : Effect :=
  { id := "glow", name := "Glow", description := "test effect glow",
    category := Category.postprocessing, performanceImpact := Impact.low,
    parameters := [("strength", Val.num 1)] }

/-- A test effect that conflicts with `glow`. -/
def strobeEffect : Effect :=
  { id := "strobe", name := "Strobe", description := "test effect strobe",
    category := Category.postprocessing, performanceImpact := Impact.low,
    conflictsWith := ["glow"],
    parameters := [("rate", Val.num 2)] }

/-- A registry whose catalog holds `glow` and `strobe` and whose only
active effect is `glow`, enabled with one notification so far. -/
def conflictDemo : EffectManager :=
  (EffectManager.enableEffect
    { effects := [("glow", glowEffect), ("strobe", strobeEffect)],
      activeEffects := [], globalIntensity := 1, notifications := 0 }
    "glow" 1 0).2

/-! ## Helper lemmas about the map and bag operations -/

section MapLemmas

variable {α β : Type}

lemma mapLookup_cons (p : String × α) (l : List (String × α)) (k : String) :
    mapLookup (p :: l) k = if p.1 = k then some p.2 else mapLookup l k := by
  by_cases h : p.1 = k
  · simp [mapLookup, List.find?_cons_of_pos, h]
  · simp [mapLookup, List.find?_cons_of_neg, h]

lemma mapLookup_append (l1 l2 : List (String × α)) (k : String) :
    mapLookup (l1 ++ l2) k =
      match mapLookup l1 k with
      | some v => some v
      | none => mapLookup l2 k := by
  induction l1 with
  | nil => simp [mapLookup]
  | cons p ps ih =>
    by_cases h : p.1 = k
    · simp [mapLookup_cons, h]
    · simpa [mapLookup_cons, h] using ih

lemma mapLookup_append_of_none (l1 l2 : List (String × α)) (k : String)
    (h : mapLookup l1 k = none) : mapLookup (l1 ++ l2) k = mapLookup l2 k := by
  rw [mapLookup_append, h]

lemma mapLookup_none_iff (l : List (String × α)) (k : String) :
    mapLookup l k = none ↔ k ∉ l.map Prod.fst := by
  induction l with
  | nil => simp [mapLookup]
  | cons p ps ih =>
    by_cases h : p.1 = k
    · simp [mapLookup_cons, h]
    · simp [mapLookup_cons, h, ih, Ne.symm h]

lemma mapLookup_isSome_iff (l : List (String × α)) (k : String) :
    (mapLookup l k).isSome = true ↔ k ∈ l.map Prod.fst := by
  rw [← not_iff_not, ← mapLookup_none_iff]
  simp [Option.isSome_iff_ne_none]

lemma mapSet_of_mem (l : List (String × α)) (k : String) (v : α)
    (h : k ∈ l.map Prod.fst) :
    mapSet l k v = l.map (fun p => if p.1 = k then (k, v) else p) := by
  unfold mapSet
  rw [if_pos]
  · apply List.map_congr_left
    intro p _
    by_cases hp : p.1 = k <;> simp [hp]
  · rw [List.any_eq_true]
    rcases List.mem_map.mp h with ⟨p, hp, hpk⟩
    exact ⟨p, hp, by simp [hpk]⟩

lemma mapSet_of_not_mem (l : List (String × α)) (k : String) (v : α)
    (h : k ∉ l.map Prod.fst) :
    mapSet l k v = l ++ [(k, v)] := by
  unfold mapSet
  rw [if_neg]
  rw [List.any_eq_true]
  rintro ⟨p, hp, hpk⟩
  exact h (List.mem_map.mpr ⟨p, hp, by simpa using hpk⟩)

lemma mapLookup_mapSet_self (l : List (String × α)) (k : String) (v : α) :
    mapLookup (mapSet l k v) k = some v := by
  by_cases h : k ∈ l.map Prod.fst
  · rw [mapSet_of_mem l k v h]
    induction l with
    | nil => simp at h
    | cons p ps ih =>
      by_cases hp : p.1 = k
      · simp [hp, mapLookup_cons]
      · rcases List.mem_map.mp h with ⟨q, hq, hqk⟩
        rcases List.mem_cons.mp hq with rfl | hq'
        · exact absurd hqk hp
        · simpa [hp, mapLookup_cons] using ih (List.mem_map.mpr ⟨q, hq', hqk⟩)
  · rw [mapSet_of_not_mem l k v h, mapLookup_append,
        (mapLookup_none_iff l k).mpr h]
    simp [mapLookup]

lemma mapLookup_map_replace (l : List (String × α)) (k k' : String) (v : α)
    (h : k' ≠ k) :
    mapLookup (l.map (fun p => if p.1 = k then (k, v) else p)) k' = mapLookup l k' := by
  induction l with
  | nil => rfl
  | cons p ps ih =>
    by_cases hp : p.1 = k
    · have hkk : ¬ (k = k') := fun hk => h hk.symm
      simp only [List.map_cons, if_pos hp, mapLookup_cons, if_neg hkk,
        if_neg (hp ▸ hkk), ih]
    · simp only [List.map_cons, if_neg hp, mapLookup_cons, ih]

lemma mapLookup_mapSet_of_ne (l : List (String × α)) (k k' : String) (v : α)
    (h : k' ≠ k) : mapLookup (mapSet l k v) k' = mapLookup l k' := by
  by_cases hm : k ∈ l.map Prod.fst
  · rw [mapSet_of_mem l k v hm, mapLookup_map_replace l k k' v h]
  · rw [mapSet_of_not_mem l k v hm, mapLookup_append]
    cases hlk : mapLookup l k' with
    | some v' => rfl
    | none => simp [mapLookup_cons, Ne.symm h, mapLookup]

lemma keys_mapSet_of_mem (l : List (String × α)) (k : String) (v : α)
    (h : k ∈ l.map Prod.fst) :
    (mapSet l k v).map Prod.fst = l.map Prod.fst := by
  rw [mapSet_of_mem l k v h, List.map_map]
  apply List.map_congr_left
  intro p _
  by_cases hp : p.1 = k <;> simp [hp]

lemma keys_mapSet_of_not_mem (l : List (String × α)) (k : String) (v : α)
    (h : k ∉ l.map Prod.fst) :
    (mapSet l k v).map Prod.fst = l.map Prod.fst ++ [k] := by
  rw [mapSet_of_not_mem l k v h]
  simp

lemma nodup_keys_mapSet (l : List (String × α)) (k : String) (v : α)
    (h : (l.map Prod.fst).Nodup) : ((mapSet l k v).map Prod.fst).Nodup := by
  by_cases hm : k ∈ l.map Prod.fst
  · rwa [keys_mapSet_of_mem l k v hm]
  · rw [keys_mapSet_of_not_mem l k v hm]
    refine List.Nodup.append h (List.nodup_singleton k) ?_
    intro x hx hk
    rw [List.mem_singleton] at hk
    exact hm (hk ▸ hx)

lemma mem_mapSet (l : List (String × α)) (k : String) (v : α) (q : String × α)
    (h : q ∈ mapSet l k v) : q = (k, v) ∨ q ∈ l := by
  by_cases hm : k ∈ l.map Prod.fst
  · rw [mapSet_of_mem l k v hm] at h
    rcases List.mem_map.mp h with ⟨p, hp, hpq⟩
    by_cases hpk : p.1 = k
    · left
      simpa [hpk] using hpq.symm
    · right
      rw [if_neg hpk] at hpq
      exact hpq ▸ hp
  · rw [mapSet_of_not_mem l k v hm] at h
    rcases List.mem_append.mp h with h | h
    · exact Or.inr h
    · exact Or.inl (by simpa using h)

lemma mapLookup_filter_keyPred (l : List (String × α)) (q : String → Bool) (k : String) :
    mapLookup (l.filter (fun p => q p.1)) k = if q k then mapLookup l k else none := by
  induction l with
  | nil => simp [mapLookup]
  | cons p ps ih =>
    by_cases hp : p.1 = k
    · subst hp
      cases hq : q p.1 <;> simp [hq, List.filter_cons, mapLookup_cons, ih]
    · cases hq : q p.1 <;> simp [hq, List.filter_cons, mapLookup_cons, hp, ih]

lemma nodup_keys_filter (l : List (String × α)) (q : String × α → Bool)
    (h : (l.map Prod.fst).Nodup) : ((l.filter q).map Prod.fst).Nodup :=
  ((List.filter_sublist l).map Prod.fst).nodup h

lemma mapLookup_map_entries (l : List (String × α)) (g : String × α → β) (k : String) :
    mapLookup (l.map (fun p => (p.1, g p))) k
      = (l.find? (fun p => p.1 == k)).map g := by
  induction l with
  | nil => rfl
  | cons p ps ih =>
    by_cases hp : p.1 = k
    · have hb : (p.1 == k) = true := by simp [hp]
      have hfind : List.find? (fun q => q.1 == k) (p :: ps) = some p :=
        List.find?_cons_of_pos ps hb
      rw [List.map_cons, mapLookup_cons, if_pos hp, hfind]
      rfl
    · have hb : ¬ ((p.1 == k) = true) := by simp [hp]
      have hfind : List.find? (fun q => q.1 == k) (p :: ps)
          = List.find? (fun q => q.1 == k) ps :=
        List.find?_cons_of_neg ps hb
      rw [List.map_cons, mapLookup_cons, if_neg hp, ih, hfind]

lemma find?_key_eq (l : List (String × α)) (k : String) (p : String × α)
    (h : l.find? (fun q => q.1 == k) = some p) : p.1 = k := by
  have := List.find?_some h
  simpa using this

lemma string_beq_comm (a b : String) : (a == b) = (b == a) := by
  by_cases h : a = b
  · simp [h]
  · simp [h, Ne.symm h]

lemma mapLookup_mem (l : List (String × α)) (k : String) (v : α)
    (h : mapLookup l k = some v) : (k, v) ∈ l := by
  unfold mapLookup at h
  cases hf : l.find? (fun p => p.1 == k) with
  | none => simp [hf] at h
  | some p =>
    have hm := List.mem_of_find?_eq_some hf
    have hk := find?_key_eq l k p hf
    have hv : p.2 = v := by simpa [hf] using h
    rcases p with ⟨pk, pv⟩
    dsimp at hk hv
    rw [← hk, ← hv]
    exact hm

lemma mapSet_append_self (l : List (String × α)) (k : String) (v w : α)
    (h : k ∉ l.map Prod.fst) : mapSet (l ++ [(k, v)]) k w = l ++ [(k, w)] := by
  have hmem : k ∈ (l ++ [(k, v)]).map Prod.fst := by simp
  rw [mapSet_of_mem _ _ _ hmem, List.map_append]
  congr 1
  · have hptw : ∀ p ∈ l, (if p.1 = k then (k, w) else p) = p := by
      intro p hp
      rw [if_neg]
      intro hpk
      exact h (hpk ▸ List.mem_map.mpr ⟨p, hp, rfl⟩)
    exact (List.map_congr_left hptw).trans (List.map_id l)
  · simp

end MapLemmas

section BagLemmas

lemma bagLookup_eq_mapLookup (b : List (String × Val)) (k : String) :
    bagLookup b k = mapLookup b k := rfl

lemma bagLookup_merge_of_some (a b : List (String × Val)) (k : String) (v : Val)
    (ha : bagLookup a k = some v) :
    bagLookup (bagMerge a b) k = some ((bagLookup b k).getD v) := by
  have hf : ∃ p, a.find? (fun q => q.1 == k) = some p ∧ p.2 = v := by
    unfold bagLookup at ha
    cases hfa : a.find? (fun q => q.1 == k) with
    | none => simp [hfa] at ha
    | some p => exact ⟨p, rfl, by simpa [hfa] using ha⟩
  rcases hf with ⟨p, hfa, hpv⟩
  have hpk : p.1 = k := find?_key_eq a k p hfa
  unfold bagMerge
  rw [bagLookup_eq_mapLookup, mapLookup_append,
    mapLookup_map_entries a (fun p => (bagLookup b p.1).getD p.2) k, hfa]
  simp [hpk, hpv]

lemma bagLookup_merge_of_none (a b : List (String × Val)) (k : String)
    (ha : bagLookup a k = none) :
    bagLookup (bagMerge a b) k = bagLookup b k := by
  have hfa : a.find? (fun q => q.1 == k) = none := by
    unfold bagLookup at ha
    cases hfa : a.find? (fun q => q.1 == k) with
    | none => rfl
    | some p => simp [hfa] at ha
  unfold bagMerge
  rw [bagLookup_eq_mapLookup, mapLookup_append,
    mapLookup_map_entries a (fun p => (bagLookup b p.1).getD p.2) k, hfa]
  have : mapLookup (b.filter (fun p => (bagLookup a p.1).isNone)) k
      = if (bagLookup a k).isNone then mapLookup b k else none :=
    mapLookup_filter_keyPred b (fun k0 => (bagLookup a k0).isNone) k
  simpa [ha] using this

lemma bagKeysSub_refl (a : List (String × Val)) : BagKeysSub a a := fun _ h => h

lemma bagKeysSub_merge (d a b : List (String × Val)) (h : BagKeysSub d a) :
    BagKeysSub d (bagMerge a b) := by
  intro k hk
  have := h k hk
  cases hv : bagLookup a k with
  | none => simp [hv] at this
  | some v => simp [bagLookup_merge_of_some a b k v hv]

lemma bagLookup_merge_of_sub (a b : List (String × Val)) (h : BagKeysSub a b) (k : String) :
    bagLookup (bagMerge a b) k = bagLookup b k := by
  cases hv : bagLookup a k with
  | none => exact bagLookup_merge_of_none a b k hv
  | some v =>
    have hb : (bagLookup b k).isSome = true := h k (by simp [hv])
    cases hw : bagLookup b k with
    | none => simp [hw] at hb
    | some w => simp [bagLookup_merge_of_some a b k v hv, hw]

end BagLemmas

/-! ## PerformanceOptimizer lemmas and claims C5, C9 -/

namespace PerformanceOptimizer

lemma adjustCountForLevel_le (l req : ℚ) (h : 0 ≤ req) :
    adjustCountForLevel l req ≤ req := by
  have f1 := Int.floor_le (req * (1/4))
  have f2 := Int.floor_le (req * (1/2))
  have f3 := Int.floor_le (req * (3/4))
  unfold adjustCountForLevel
  split_ifs <;> linarith

lemma adjustCountForLevel_mono (req : ℚ) (h : 0 ≤ req) (l1 l2 : ℚ) (h12 : l1 ≤ l2) :
    adjustCountForLevel l1 req ≤ adjustCountForLevel l2 req := by
  have m1 : ((⌊req * (1/4)⌋ : ℤ) : ℚ) ≤ ((⌊req * (1/2)⌋ : ℤ) : ℚ) := by
    exact_mod_cast Int.floor_le_floor (by linarith)
  have m2 : ((⌊req * (1/2)⌋ : ℤ) : ℚ) ≤ ((⌊req * (3/4)⌋ : ℤ) : ℚ) := by
    exact_mod_cast Int.floor_le_floor (by linarith)
  have f3 := Int.floor_le (req * (3/4))
  have f2 := Int.floor_le (req * (1/2))
  have f1 := Int.floor_le (req * (1/4))
  unfold adjustCountForLevel
  split_ifs <;> linarith

lemma getPerformanceLevel_nonneg (s : PerformanceOptimizer) :
    0 ≤ getPerformanceLevel s :=
  le_min (by norm_num) (le_max_left 0 _)

lemma getPerformanceLevel_le_one (s : PerformanceOptimizer) :
    getPerformanceLevel s ≤ 1 :=
  min_le_left 1 _

lemma length_addFrameTime_le (s : PerformanceOptimizer) (d : ℚ)
    (h : s.frameRates.length ≤ 60) : (addFrameTime s d).frameRates.length ≤ 60 := by
  unfold addFrameTime maxSamples
  dsimp only
  split_ifs with hlen
  · simp only [List.length_tail, List.length_append, List.length_singleton]
    omega
  · simp only [List.length_append, List.length_singleton] at hlen ⊢
    omega

lemma length_foldl_addFrameTime (deltas : List ℚ) :
    ∀ s : PerformanceOptimizer, s.frameRates.length ≤ 60 →
      (deltas.foldl addFrameTime s).frameRates.length ≤ 60 := by
  induction deltas with
  | nil => intro s h; simpa using h
  | cons d ds ih =>
    intro s h
    exact ih (addFrameTime s d) (length_addFrameTime_le s d h)

/-- **C9.** After any sequence of `addFrameTime` calls on a fresh
optimizer the sample buffer holds at most 60 samples; when the buffer is
full the oldest sample (the list head) is evicted first; the performance
level is always in `[0,1]` inclusive; and the average FPS of an empty
buffer is 60. -/
theorem ringBuffer_invariants (deltas : List ℚ) (s : PerformanceOptimizer) :
    (deltas.foldl addFrameTime init).frameRates.length ≤ 60 ∧
    (s.frameRates.length = 60 →
      ∀ d : ℚ, (addFrameTime s d).frameRates = s.frameRates.tail ++ [1 / d]) ∧
    (0 ≤ getPerformanceLevel s ∧ getPerformanceLevel s ≤ 1) ∧
    (s.frameRates = [] → getAverageFPS s = 60) := by
  refine ⟨length_foldl_addFrameTime deltas init (by simp [init]), ?_, ?_, ?_⟩
  · intro h60 d
    unfold addFrameTime maxSamples
    dsimp only
    rw [if_pos (by simp [h60])]
    cases hfr : s.frameRates with
    | nil => rw [hfr] at h60; simp at h60
    | cons a as => simp
  · exact ⟨getPerformanceLevel_nonneg s, getPerformanceLevel_le_one s⟩
  · intro h
    unfold getAverageFPS
    rw [if_pos (by simp [h])]

/-- Witness for C9 at concrete inputs: 100 recorded frames leave at most
60 samples, a full buffer evicts its head, the level of a concrete state
is within bounds, and a fresh optimizer averages 60 FPS. -/
theorem ringBuffer_invariants_witness :
    ((List.replicate 100 ((1 : ℚ)/60)).foldl addFrameTime init).frameRates.length ≤ 60 ∧
    (addFrameTime ⟨List.replicate 60 (30 : ℚ)⟩ (1/60)).frameRates
      = (List.replicate 60 (30 : ℚ)).tail ++ [1 / (1/60)] ∧
    (0 ≤ getPerformanceLevel ⟨[45]⟩ ∧ getPerformanceLevel ⟨[45]⟩ ≤ 1) ∧
    getAverageFPS init = 60 := by
  have h := ringBuffer_invariants (List.replicate 100 ((1 : ℚ)/60)) ⟨List.replicate 60 (30 : ℚ)⟩
  have h2 := ringBuffer_invariants ([] : List ℚ) ⟨[45]⟩
  have h3 := ringBuffer_invariants ([] : List ℚ) init
  exact ⟨h.1, h.2.1 (by decide) (1/60), h2.2.2.1, h3.2.2.2 rfl⟩

/-- **C5.** `adjustParticleCount` returns the floor of 25% of the request
below level 0.3, of 50% below 0.6, of 75% below 0.8, and the full request
otherwise; on an integer request the result is an integer, never exceeds
the request, and is monotone in the performance level. -/
theorem adjustParticleCount_spec (s s' : PerformanceOptimizer) (n : ℕ) :
    (getPerformanceLevel s < 3/10 →
      adjustParticleCount s n = ((⌊(n : ℚ) * (1/4)⌋ : ℤ) : ℚ)) ∧
    (3/10 ≤ getPerformanceLevel s → getPerformanceLevel s < 3/5 →
      adjustParticleCount s n = ((⌊(n : ℚ) * (1/2)⌋ : ℤ) : ℚ)) ∧
    (3/5 ≤ getPerformanceLevel s → getPerformanceLevel s < 4/5 →
      adjustParticleCount s n = ((⌊(n : ℚ) * (3/4)⌋ : ℤ) : ℚ)) ∧
    (4/5 ≤ getPerformanceLevel s → adjustParticleCount s n = n) ∧
    (∃ k : ℤ, adjustParticleCount s n = (k : ℚ)) ∧
    adjustParticleCount s n ≤ (n : ℚ) ∧
    (getPerformanceLevel s ≤ getPerformanceLevel s' →
      adjustParticleCount s n ≤ adjustParticleCount s' n) := by
  have hn : (0 : ℚ) ≤ n := Nat.cast_nonneg n
  refine ⟨?_, ?_, ?_, ?_, ?_, adjustCountForLevel_le _ _ hn, ?_⟩
  · intro h1
    simp only [adjustParticleCount, adjustCountForLevel, if_pos h1]
  · intro h1 h2
    simp only [adjustParticleCount, adjustCountForLevel,
      if_neg (not_lt.mpr h1), if_pos h2]
  · intro h1 h2
    simp only [adjustParticleCount, adjustCountForLevel,
      if_neg (not_lt.mpr (by linarith : (3:ℚ)/10 ≤ getPerformanceLevel s)),
      if_neg (not_lt.mpr h1), if_pos h2]
  · intro h1
    simp only [adjustParticleCount, adjustCountForLevel,
      if_neg (not_lt.mpr (by linarith : (3:ℚ)/10 ≤ getPerformanceLevel s)),
      if_neg (not_lt.mpr (by linarith : (3:ℚ)/5 ≤ getPerformanceLevel s)),
      if_neg (not_lt.mpr h1)]
  · unfold adjustParticleCount adjustCountForLevel
    split_ifs
    · exact ⟨_, rfl⟩
    · exact ⟨_, rfl⟩
    · exact ⟨_, rfl⟩
    · exact ⟨n, by norm_num⟩
  · intro h12
    exact adjustCountForLevel_mono _ hn _ _ h12

lemma level_avg20 : getPerformanceLevel ⟨[20]⟩ = 0 := by
  norm_num [getPerformanceLevel, getAverageFPS, minFPS, targetFPS, min_def, max_def]

lemma level_avg45 : getPerformanceLevel ⟨[45]⟩ = 1/2 := by
  norm_num [getPerformanceLevel, getAverageFPS, minFPS, targetFPS, min_def, max_def]

lemma level_avg60 : getPerformanceLevel ⟨[60]⟩ = 1 := by
  norm_num [getPerformanceLevel, getAverageFPS, minFPS, targetFPS, min_def, max_def]

/-- Witness for C5 over the avgFPS states 20, 45 and 60: the quarter,
half and full budgets at request 10000, the bound, and monotonicity
between the level-0 and level-one-half states. -/
theorem adjustParticleCount_spec_witness :
    adjustParticleCount ⟨[20]⟩ ((10000 : ℕ) : ℚ) = 2500 ∧
    adjustParticleCount ⟨[45]⟩ ((10000 : ℕ) : ℚ) = 5000 ∧
    adjustParticleCount ⟨[60]⟩ ((10000 : ℕ) : ℚ) = 10000 ∧
    adjustParticleCount ⟨[45]⟩ ((10000 : ℕ) : ℚ) ≤ ((10000 : ℕ) : ℚ) ∧
    adjustParticleCount ⟨[20]⟩ ((10000 : ℕ) : ℚ) ≤ adjustParticleCount ⟨[45]⟩ ((10000 : ℕ) : ℚ) := by
  have h1 := adjustParticleCount_spec ⟨[20]⟩ ⟨[45]⟩ 10000
  have h2 := adjustParticleCount_spec ⟨[45]⟩ ⟨[45]⟩ 10000
  have h3 := adjustParticleCount_spec ⟨[60]⟩ ⟨[60]⟩ 10000
  refine ⟨?_, ?_, ?_, h2.2.2.2.2.2.1,
    h1.2.2.2.2.2.2 (by rw [level_avg20, level_avg45]; norm_num)⟩
  · rw [h1.1 (by rw [level_avg20]; norm_num)]
    norm_num
  · rw [h2.2.1 (by rw [level_avg45]; norm_num) (by rw [level_avg45]; norm_num)]
    norm_num
  · rw [h3.2.2.2.1 (by rw [level_avg60]; norm_num)]
    norm_num

end PerformanceOptimizer

/-! ## AnimationSequencer lemmas and claims C1, C3, C6 -/

namespace AnimationSequencer

lemma loopCount_append (a b : List SeqEvent) :
    loopCount (a ++ b) = loopCount a + loopCount b := by
  simp [loopCount, List.filter_append]

lemma loopCount_looped (id : String) : loopCount [SeqEvent.looped id] = 1 := rfl

lemma loopCount_updated (p : ℚ) (d : List (String × List (String × Val))) :
    loopCount [SeqEvent.updated p d] = 0 := rfl

/-- **C1 counterexample.** On the code, a playing looping sequence of
duration 10 receiving a single `update()` at elapsed 25 seconds ends with
progress 0 — not approximately 0.5 — and exactly one `loop` event, not
two: the wrap discards the overshoot instead of keeping `progress mod 1`. -/
theorem loop_singleUpdate_at25_cex :
    (update loopDemoStart 25000).progress = 0 ∧
    (update loopDemoStart 25000).progress ≠ 1/2 ∧
    loopCount (update loopDemoStart 25000).events = 1 := by
  refine ⟨?_, ?_, ?_⟩ <;>
  norm_num +decide [update, emitUpdate, play, addSequence, loopDemoStart, initialSequencer,
    initializeDefaultSequences, seq10, mapSet, mapLookup, loopCount, cosmicSequence,
    fireSequence, waterSequence, crystalSequence, plasmaSequence]

/-- **C1** (amended).  When `update()` is called on a playing looping
sequence and the computed progress is `≥ 1`, the sequencer re-anchors
`startTime` to now and resets progress to `0` — discarding the
fractional overshoot rather than keeping `progress mod 1` — and fires
exactly one `loop` event for that call; consequently a duration-10
looping sequence updated at 10 s, 20 s and 25 s shows progress 0.5 with
exactly two `loop` events (one per boundary crossing), while coarser
update schedules covering the same 25 elapsed seconds may observe fewer
wraps and a different progress. -/
theorem loopWrap_resets_anchor (s : AnimationSequencer) (sequence : AnimationSequence)
    (now : ℚ) (hp : s.isPlaying = true) (hc : s.currentSequence = some sequence)
    (hl : sequence.loop = true)
    (hw : (now - s.startTime) * (1/1000) * s.speed / sequence.duration ≥ 1) :
    (update s now).progress = 0 ∧
    (update s now).startTime = now ∧
    loopCount (update s now).events = loopCount s.events + 1 ∧
    ([10000, 20000, 25000].foldl update loopDemoStart).progress = 1/2 ∧
    loopCount ([10000, 20000, 25000].foldl update loopDemoStart).events = 2 := by
  have hupd : update s now
      = emitUpdate { s with startTime := now, progress := 0,
                            events := s.events ++ [SeqEvent.looped sequence.id] } sequence := by
    unfold update
    rw [hp, hc]
    simp only [if_pos hw, hl, if_pos]
  refine ⟨?_, ?_, ?_, ?_, ?_⟩
  · rw [hupd]; rfl
  · rw [hupd]; rfl
  · rw [hupd]
    unfold emitUpdate
    simp only [loopCount_append]
    rfl
  · norm_num +decide [update, emitUpdate, play, addSequence, loopDemoStart, initialSequencer,
      initializeDefaultSequences, seq10, mapSet, mapLookup, loopCount, cosmicSequence,
      fireSequence, waterSequence, crystalSequence, plasmaSequence]
  · norm_num +decide [update, emitUpdate, play, addSequence, loopDemoStart, initialSequencer,
      initializeDefaultSequences, seq10, mapSet, mapLookup, loopCount, cosmicSequence,
      fireSequence, waterSequence, crystalSequence, plasmaSequence]

/-- Witness for the amended C1 at a concrete input: the single update of
`loopDemoStart` at 25 s re-anchors to 25000 ms, resets progress to 0 and
fires one `loop` event. -/
theorem loopWrap_resets_anchor_witness :
    (update loopDemoStart 25000).progress = 0 ∧
    (update loopDemoStart 25000).startTime = 25000 ∧
    loopCount (update loopDemoStart 25000).events = loopCount loopDemoStart.events + 1 := by
  have h := loopWrap_resets_anchor loopDemoStart seq10 25000
    (by norm_num +decide [play, addSequence, loopDemoStart, initialSequencer,
      initializeDefaultSequences, seq10, mapSet, mapLookup, cosmicSequence,
      fireSequence, waterSequence, crystalSequence, plasmaSequence])
    (by norm_num +decide [play, addSequence, loopDemoStart, initialSequencer,
      initializeDefaultSequences, seq10, mapSet, mapLookup, cosmicSequence,
      fireSequence, waterSequence, crystalSequence, plasmaSequence])
    rfl
    (by norm_num +decide [play, addSequence, loopDemoStart, initialSequencer,
      initializeDefaultSequences, seq10, mapSet, mapLookup, cosmicSequence,
      fireSequence, waterSequence, crystalSequence, plasmaSequence])
  exact ⟨h.1, h.2.1, h.2.2.1⟩

/-- **C3 counterexample.** On the code, pausing at progress 0.5 and then
resuming via `play()` restarts the sequence: the next `update()` at the
resume instant yields progress 0, not approximately 0.5. -/
theorem pauseResume_jump_cex :
    pauseDemo.progress = 1/2 ∧
    (pause pauseDemo).progress = 1/2 ∧
    (update (play (pause pauseDemo) none 100000) 100000).progress = 0 := by
  refine ⟨?_, ?_, ?_⟩ <;>
  norm_num +decide [update, emitUpdate, play, pause, pauseDemo, addSequence, loopDemoStart,
    initialSequencer, initializeDefaultSequences, seq10, mapSet, mapLookup, cosmicSequence,
    fireSequence, waterSequence, crystalSequence, plasmaSequence]

/-- **C3** (amended).  `pause()` stops playback and preserves the stored
progress, but it does not adjust the start-time anchor, and resuming via
`play()` resets the anchor to the current time; hence the `update()` at
the resume instant computes progress from zero — the sequence restarts
instead of continuing from the paused progress. -/
theorem pause_preserves_resume_restarts (s : AnimationSequencer)
    (sequence : AnimationSequence) (now : ℚ)
    (hc : s.currentSequence = some sequence) :
    (pause s).progress = s.progress ∧
    (pause s).isPlaying = false ∧
    (pause s).startTime = s.startTime ∧
    (play s none now).isPlaying = true ∧
    (play s none now).startTime = now ∧
    (update (play s none now) now).progress = 0 := by
  have hplay : play s none now
      = { s with isPlaying := true, startTime := now,
                 events := s.events ++ [SeqEvent.played sequence.id] } := by
    simp only [play, hc]
  refine ⟨rfl, rfl, rfl, by rw [hplay], by rw [hplay], ?_⟩
  rw [hplay]
  unfold update
  simp only [hc]
  norm_num [emitUpdate]

/-- Witness for the amended C3 at a concrete input: pausing `pauseDemo`
keeps its progress and resuming at 100 s restarts from progress 0. -/
theorem pause_preserves_resume_restarts_witness :
    (pause pauseDemo).progress = pauseDemo.progress ∧
    (pause pauseDemo).isPlaying = false ∧
    (update (play pauseDemo none 100000) 100000).progress = 0 := by
  have h := pause_preserves_resume_restarts pauseDemo seq10 100000
    (by norm_num +decide [update, emitUpdate, play, pause, pauseDemo, addSequence,
      loopDemoStart, initialSequencer, initializeDefaultSequences, seq10, mapSet,
      mapLookup, cosmicSequence, fireSequence, waterSequence, crystalSequence,
      plasmaSequence])
  exact ⟨h.1, h.2.1, h.2.2.2.2.2⟩

lemma lastKeyframe_nil (a : AnimationKeyframe) : lastKeyframe a [] = a := rfl

lemma lastKeyframe_cons (a b : AnimationKeyframe) (bs : List AnimationKeyframe) :
    lastKeyframe a (b :: bs) = lastKeyframe b bs := by
  unfold lastKeyframe
  exact List.getLast_cons (by simp)

lemma chain_head_lt_mem (a : AnimationKeyframe) (l : List AnimationKeyframe)
    (h : List.Chain' (fun x y => x.time < y.time) (a :: l)) :
    ∀ kf ∈ l, a.time < kf.time := by
  induction l generalizing a with
  | nil => intro kf hkf; simp at hkf
  | cons b bs ih =>
    intro kf hkf
    have hab : a.time < b.time := (List.chain'_cons.mp h).1
    rcases List.mem_cons.mp hkf with rfl | hkf'
    · exact hab
    · exact lt_trans hab (ih b (List.chain'_cons.mp h).2 kf hkf')

lemma chain_head_le_last (rest : List AnimationKeyframe) (a : AnimationKeyframe)
    (h : List.Chain' (fun x y => x.time < y.time) (a :: rest)) :
    a.time ≤ (lastKeyframe a rest).time := by
  induction rest generalizing a with
  | nil => exact le_refl _
  | cons b bs ih =>
    rw [lastKeyframe_cons]
    exact le_of_lt (lt_of_lt_of_le (List.chain'_cons.mp h).1
      (ih b (List.chain'_cons.mp h).2))

lemma chain_head_lt_last (rest : List AnimationKeyframe) (a : AnimationKeyframe)
    (hne : rest ≠ []) (h : List.Chain' (fun x y => x.time < y.time) (a :: rest)) :
    a.time < (lastKeyframe a rest).time := by
  cases rest with
  | nil => exact absurd rfl hne
  | cons b bs =>
    rw [lastKeyframe_cons]
    exact lt_of_lt_of_le (List.chain'_cons.mp h).1
      (chain_head_le_last bs b (List.chain'_cons.mp h).2)

lemma scanKeyframes_none_of_lt (t : ℚ) (b : AnimationKeyframe)
    (bs : List AnimationKeyframe) (h : ∀ kf ∈ b :: bs, t < kf.time) :
    scanKeyframes b bs t = none := by
  induction bs generalizing b with
  | nil => rfl
  | cons c cs ih =>
    unfold scanKeyframes
    rw [if_neg]
    · exact ih c (fun kf hk => h kf (List.mem_cons_of_mem b hk))
    · rintro ⟨hbt, -⟩
      exact absurd hbt (not_le.mpr (h b (List.mem_cons_self b (c :: cs))))

lemma scanKeyframes_ge_last (t : ℚ) (rest : List AnimationKeyframe)
    (a p q : AnimationKeyframe)
    (hch : List.Chain' (fun x y => x.time < y.time) (a :: rest))
    (hle : (lastKeyframe a rest).time ≤ t)
    (hscan : scanKeyframes a rest t = some (p, q)) :
    q = lastKeyframe a rest ∧ p.time < t := by
  induction rest generalizing a p q with
  | nil => simp [scanKeyframes] at hscan
  | cons b bs ih =>
    rw [lastKeyframe_cons] at hle ⊢
    have hab : a.time < b.time := (List.chain'_cons.mp hch).1
    have hchb : List.Chain' (fun x y => x.time < y.time) (b :: bs) :=
      (List.chain'_cons.mp hch).2
    unfold scanKeyframes at hscan
    by_cases hcond : a.time ≤ t ∧ t ≤ b.time
    · rw [if_pos hcond] at hscan
      have hpq : p = a ∧ q = b := by
        have := hscan
        injection this with h1
        injection h1 with h2 h3
        exact ⟨h2.symm, h3.symm⟩
      rcases hpq with ⟨rfl, rfl⟩
      cases bs with
      | nil =>
        exact ⟨(lastKeyframe_nil q).symm, lt_of_lt_of_le hab hle⟩
      | cons c cs =>
        have hlt : q.time < (lastKeyframe q (c :: cs)).time :=
          chain_head_lt_last (c :: cs) q (by simp) hchb
        exact absurd (lt_of_lt_of_le hlt hle) (not_lt.mpr hcond.2)
    · rw [if_neg hcond] at hscan
      exact ih b p q hchb hle hscan

/-- **C6.** For a track whose keyframe list is non-empty and strictly
ascending in time, querying the interpolation at a time at or before the
first keyframe returns exactly the first keyframe's property bag, and at
or after the last keyframe returns exactly the last keyframe's property
bag — no extrapolation on either side. -/
theorem interpolateTrack_clamps_to_endpoints (track : AnimationTrack)
    (k0 : AnimationKeyframe) (rest : List AnimationKeyframe) (t : ℚ)
    (htrack : track.keyframes = k0 :: rest)
    (hsort : List.Chain' (fun a b => a.time < b.time) (k0 :: rest)) :
    (t ≤ k0.time → interpolateTrack track t = k0.properties) ∧
    ((lastKeyframe k0 rest).time ≤ t →
      interpolateTrack track t = (lastKeyframe k0 rest).properties) := by
  have hbody : interpolateTrack track t
      = (let pair := (scanKeyframes k0 rest t).getD (k0, lastKeyframe k0 rest)
         if t ≤ pair.1.time then pair.1.properties
         else if t ≥ pair.2.time then pair.2.properties
         else
           let dur := pair.2.time - pair.1.time
           let u := (t - pair.1.time) / dur
           let easedT := match pair.2.easing with
             | some e => e u
             | none => u
           interpProps pair.1 pair.2 easedT) := by
    unfold interpolateTrack
    rw [htrack]
    rfl
  constructor
  · intro hfirst
    rw [hbody]
    cases rest with
    | nil =>
      simp only [scanKeyframes, Option.getD_none]
      rw [if_pos hfirst]
    | cons b bs =>
      have hab : k0.time < b.time := (List.chain'_cons.mp hsort).1
      by_cases hk0 : k0.time ≤ t
      · have hscan : scanKeyframes k0 (b :: bs) t = some (k0, b) := by
          unfold scanKeyframes
          rw [if_pos ⟨hk0, le_of_lt (lt_of_le_of_lt hfirst hab)⟩]
        rw [hscan]
        simp only [Option.getD_some]
        rw [if_pos hfirst]
      · have hscan : scanKeyframes k0 (b :: bs) t = none := by
          unfold scanKeyframes
          rw [if_neg (fun h => hk0 h.1)]
          exact scanKeyframes_none_of_lt t b bs (fun kf hkf => by
            rcases List.mem_cons.mp hkf with rfl | hkf'
            · exact lt_trans (not_le.mp hk0) hab
            · exact lt_trans (not_le.mp hk0)
                (chain_head_lt_mem k0 (b :: bs) hsort kf (List.mem_cons_of_mem b hkf')))
        rw [hscan]
        simp only [Option.getD_none]
        rw [if_pos hfirst]
  · intro hlast
    rw [hbody]
    cases hscan : scanKeyframes k0 rest t with
    | none =>
      simp only [hscan, Option.getD_none]
      cases rest with
      | nil =>
        simp only [lastKeyframe_nil] at hlast ⊢
        by_cases hk0 : t ≤ k0.time
        · rw [if_pos hk0]
        · rw [if_neg hk0, if_pos (le_of_lt (not_le.mp hk0))]
      | cons b bs =>
        have hk0lt : k0.time < (lastKeyframe k0 (b :: bs)).time :=
          chain_head_lt_last (b :: bs) k0 (by simp) hsort
        rw [if_neg (not_le.mpr (lt_of_lt_of_le hk0lt hlast)), if_pos hlast]
    | some pq =>
      obtain ⟨p, q⟩ := pq
      have hq := scanKeyframes_ge_last t rest k0 p q hsort hlast hscan
      simp only [hscan, Option.getD_some]
      rw [if_neg (not_le.mpr hq.2), hq.1, if_pos hlast]

/-- Witness for C6 at a concrete track: two keyframes at times 0 and 10,
queried at times -5 and 15. -/
theorem interpolateTrack_clamps_witness :
    interpolateTrack demoTrack (-5) = [("x", Val.num 0)] ∧
    interpolateTrack demoTrack 15 = [("x", Val.num 100)] := by
  have hs : List.Chain' (fun a b => a.time < b.time)
      [(⟨0, [("x", Val.num 0)], none⟩ : AnimationKeyframe),
       ⟨10, [("x", Val.num 100)], none⟩] := by
    simp [List.chain'_cons]
  have h1 := interpolateTrack_clamps_to_endpoints demoTrack
    ⟨0, [("x", Val.num 0)], none⟩ [⟨10, [("x", Val.num 100)], none⟩] (-5) rfl hs
  have h2 := interpolateTrack_clamps_to_endpoints demoTrack
    ⟨0, [("x", Val.num 0)], none⟩ [⟨10, [("x", Val.num 100)], none⟩] 15 rfl hs
  refine ⟨?_, ?_⟩
  · rw [h1.1 (by norm_num)]
  · rw [h2.2 (by norm_num [lastKeyframe])]
    rfl

end AnimationSequencer

/-! ## EffectManager lemmas and claims C2, C4, C7, C10 -/

namespace EffectManager

/-- The fully evaluated default catalog. -/
lemma initial_effects_eq :
    initialEffectManager.effects =
      [("fire", fireEffect), ("water", waterEffect), ("snow", snowEffect),
       ("cosmic", cosmicEffect), ("plasma", plasmaEffect),
       ("floating_islands", floatingIslandsEffect), ("crystals", crystalsEffect),
       ("energy_orbs", energyOrbsEffect), ("waves", wavesEffect),
       ("fractal_trees", fractalTreesEffect), ("geometric_shapes", geometricShapesEffect),
       ("liquid", liquidEffect), ("bloom", bloomEffect),
       ("chromatic_aberration", chromaticAberrationEffect), ("film_grain", filmGrainEffect),
       ("kaleidoscope", kaleidoscopeEffect), ("pixelation", pixelationEffect),
       ("vortex", vortexEffect), ("procedural_terrain", proceduralTerrainEffect),
       ("audio_reactive", audioReactiveEffect)] := by
  rfl

/-- **C4.** `enableEffect` on an id missing from the catalog, or on an
effect with at least one inactive declared dependency, returns `false`
and returns the state entirely unchanged (same active map, same global
intensity, no notification). -/
theorem enableEffect_soft_failure (s : EffectManager) (id : String) (i now : ℚ) :
    (mapLookup s.effects id = none → enableEffect s id i now = (false, s)) ∧
    (∀ e d, mapLookup s.effects id = some e → d ∈ e.dependencies →
      isEffectActive s d = false → enableEffect s id i now = (false, s)) := by
  constructor
  · intro h
    unfold enableEffect
    rw [h]
  · intro e d he hd hact
    have hmem : d ∈ e.dependencies.filter (fun dep => !(isEffectActive s dep)) :=
      List.mem_filter.mpr ⟨hd, by simp [hact]⟩
    have hlen : 0 < (e.dependencies.filter (fun dep => !(isEffectActive s dep))).length :=
      List.length_pos.mpr (List.ne_nil_of_mem hmem)
    unfold enableEffect
    simp only [he]
    rw [if_pos hlen]

/-- Witness for C4: on a fresh manager, an unknown id and the
`audio_reactive` effect (whose dependency `audio_context` can never be
active) both fail softly with the state unchanged. -/
theorem enableEffect_soft_failure_witness :
    enableEffect initialEffectManager "nonexistent" 1 0 = (false, initialEffectManager) ∧
    enableEffect initialEffectManager "audio_reactive" 1 0 = (false, initialEffectManager) := by
  have h1 := (enableEffect_soft_failure initialEffectManager "nonexistent" 1 0).1
  have h2 := (enableEffect_soft_failure initialEffectManager "audio_reactive" 1 0).2
  refine ⟨h1 (by rfl), h2 audioReactiveEffect "audio_context" (by rfl) ?_ (by rfl)⟩
  simp [audioReactiveEffect]

/-- **C7.** `getEffectiveIntensity` returns 0 for every inactive id and
`intensity * globalIntensity` for every active id; the stored per-effect
intensity was clamped to `[0,2]` by `enableEffect` and the global
intensity is clamped to `[0,2]` by `setGlobalIntensity`; in particular
enabling `fire` at 1.5 under the default global intensity yields 1.5,
and 0.75 after `setGlobalIntensity(0.5)`. -/
theorem getEffectiveIntensity_spec (s : EffectManager) (id : String) (i v now : ℚ) :
    (isEffectActive s id = false → getEffectiveIntensity s id = 0) ∧
    (∀ st, mapLookup s.activeEffects id = some st →
      getEffectiveIntensity s id = st.intensity * s.globalIntensity) ∧
    ((enableEffect s id i now).1 = true →
      (mapLookup (enableEffect s id i now).2.activeEffects id).map EffectState.intensity
        = some (clamp02 i)) ∧
    ((setGlobalIntensity s v).globalIntensity = clamp02 v) ∧
    getEffectiveIntensity (enableEffect initialEffectManager "fire" (3/2) 0).2 "fire"
      = 3/2 ∧
    getEffectiveIntensity
      (setGlobalIntensity (enableEffect initialEffectManager "fire" (3/2) 0).2 (1/2))
      "fire" = 3/4 := by
  refine ⟨?_, ?_, ?_, rfl, ?_, ?_⟩
  · intro h
    have hnone : mapLookup s.activeEffects id = none := by
      unfold isEffectActive at h
      exact Option.not_isSome_iff_eq_none.mp (by simp [h])
    unfold getEffectiveIntensity
    rw [hnone]
  · intro st hst
    unfold getEffectiveIntensity
    rw [hst]
  · intro hok
    cases he : mapLookup s.effects id with
    | none =>
      unfold enableEffect at hok
      rw [he] at hok
      simp at hok
    | some e =>
      by_cases hm : (e.dependencies.filter (fun dep => !(isEffectActive s dep))).length > 0
      · unfold enableEffect at hok
        simp only [he] at hok
        rw [if_pos hm] at hok
        simp at hok
      · unfold enableEffect
        simp only [he]
        rw [if_neg hm]
        simp only [notifyListeners]
        rw [mapLookup_mapSet_self]
        rfl
  · norm_num +decide [enableEffect, getEffectiveIntensity, clamp02, min_def, max_def,
      initialEffectManager, initializeDefaultEffects, defaultEffects, mapLookup, mapSet,
      isEffectActive, notifyListeners, fireEffect, waterEffect, snowEffect, cosmicEffect,
      plasmaEffect, floatingIslandsEffect, crystalsEffect, energyOrbsEffect, wavesEffect,
      fractalTreesEffect, geometricShapesEffect, liquidEffect, bloomEffect,
      chromaticAberrationEffect, filmGrainEffect, kaleidoscopeEffect, pixelationEffect,
      vortexEffect, proceduralTerrainEffect, audioReactiveEffect]
  · norm_num +decide [enableEffect, getEffectiveIntensity, setGlobalIntensity, clamp02,
      min_def, max_def, initialEffectManager, initializeDefaultEffects, defaultEffects,
      mapLookup, mapSet, isEffectActive, notifyListeners, fireEffect, waterEffect,
      snowEffect, cosmicEffect, plasmaEffect, floatingIslandsEffect, crystalsEffect,
      energyOrbsEffect, wavesEffect, fractalTreesEffect, geometricShapesEffect,
      liquidEffect, bloomEffect, chromaticAberrationEffect, filmGrainEffect,
      kaleidoscopeEffect, pixelationEffect, vortexEffect, proceduralTerrainEffect,
      audioReactiveEffect]

/-- Witness for C7: on a fresh manager `fire` is inactive with effective
intensity 0, and after enabling at 1.5 its effective intensity is 1.5. -/
theorem getEffectiveIntensity_spec_witness :
    getEffectiveIntensity initialEffectManager "fire" = 0 ∧
    getEffectiveIntensity (enableEffect initialEffectManager "fire" (3/2) 0).2 "fire"
      = 3/2 := by
  have h := getEffectiveIntensity_spec initialEffectManager "fire" (3/2) (1/2) 0
  exact ⟨h.1 (by rfl), h.2.2.2.2.1⟩

/-- **C10.** Calling `enableEffect` on an already active effect whose
dependencies are all active succeeds and replaces the stored
`EffectState`: intensity becomes the clamp of the new argument and the
parameter bag is reset to the catalog defaults, discarding any
`setEffectParameters` overrides. -/
theorem enableEffect_reenable_resets (s : EffectManager) (id : String) (i now : ℚ)
    (e : Effect) (st : EffectState)
    (he : mapLookup s.effects id = some e)
    (_hactive : mapLookup s.activeEffects id = some st)
    (hdeps : ∀ d ∈ e.dependencies, isEffectActive s d = true) :
    (enableEffect s id i now).1 = true ∧
    mapLookup (enableEffect s id i now).2.activeEffects id
      = some ⟨e, true, clamp02 i, e.parameters, now⟩ := by
  have hfilter : e.dependencies.filter (fun dep => !(isEffectActive s dep)) = [] := by
    rw [List.filter_eq_nil_iff]
    intro d hd
    simp [hdeps d hd]
  unfold enableEffect
  simp only [he, hfilter]
  rw [if_neg (by simp)]
  exact ⟨rfl, by simp only [notifyListeners]; rw [mapLookup_mapSet_self]⟩

lemma filter_key_cons_count {α : Type} (l : List (String × α)) (c : String)
    (q : String → Bool) (hnd : (l.map Prod.fst).Nodup) (hc : c ∈ l.map Prod.fst) :
    (l.filter (fun p => (c == p.1) || q p.1)).length
      = 1 + ((l.filter (fun p => !(p.1 == c))).filter (fun p => q p.1)).length := by
  induction l with
  | nil => simp at hc
  | cons a as ih =>
    rw [List.map_cons, List.nodup_cons] at hnd
    by_cases hac : a.1 = c
    · have hnotin : ∀ p ∈ as, p.1 ≠ c := by
        intro p hp hpc
        exact hnd.1 (by rw [hac, ← hpc]; exact List.mem_map.mpr ⟨p, hp, rfl⟩)
      have hfa : as.filter (fun p => (c == p.1) || q p.1) = as.filter (fun p => q p.1) :=
        List.filter_congr (fun p hp => by
          have hne : (c == p.1) = false := by
            simp [show ¬ (c = p.1) from fun h => hnotin p hp h.symm]
          simp [hne])
      have hfb : as.filter (fun p => !(p.1 == c)) = as :=
        List.filter_eq_self.mpr (fun p hp => by simp [hnotin p hp])
      rw [List.filter_cons_of_pos (by simp [hac]),
        List.filter_cons_of_neg (by simp [hac]), hfa, hfb]
      simp [Nat.add_comm]
    · have hc' : c ∈ as.map Prod.fst := by
        rcases List.mem_map.mp hc with ⟨p, hp, hpk⟩
        rcases List.mem_cons.mp hp with rfl | hp'
        · exact absurd hpk hac
        · exact List.mem_map.mpr ⟨p, hp', hpk⟩
      have ihs := ih hnd.2 hc'
      have hbc : (c == a.1) = false := by
        simp [show ¬ (c = a.1) from fun h => hac h.symm]
      have hkeep : (!(a.1 == c)) = true := by simp [hac]
      have hstep : List.filter (fun p => !(p.1 == c)) (a :: as)
          = a :: List.filter (fun p => !(p.1 == c)) as :=
        List.filter_cons_of_pos hkeep
      cases hq : q a.1
      · have h1 : List.filter (fun p => (c == p.1) || q p.1) (a :: as)
            = List.filter (fun p => (c == p.1) || q p.1) as :=
          List.filter_cons_of_neg (by simp [hbc, hq])
        have h2 : List.filter (fun p => q p.1) (a :: List.filter (fun p => !(p.1 == c)) as)
            = List.filter (fun p => q p.1) (List.filter (fun p => !(p.1 == c)) as) :=
          List.filter_cons_of_neg (by simp [hq])
        rw [h1, hstep, h2]
        exact ihs
      · have h1 : List.filter (fun p => (c == p.1) || q p.1) (a :: as)
            = a :: List.filter (fun p => (c == p.1) || q p.1) as :=
          List.filter_cons_of_pos (by simp [hq])
        have h2 : List.filter (fun p => q p.1) (a :: List.filter (fun p => !(p.1 == c)) as)
            = a :: List.filter (fun p => q p.1) (List.filter (fun p => !(p.1 == c)) as) :=
          List.filter_cons_of_pos (by simp [hq])
        rw [h1, hstep, h2]
        simp only [List.length_cons, ihs]
        omega

lemma conflictFold_spec (ids : List String) : ∀ (s : EffectManager),
    (s.activeEffects.map Prod.fst).Nodup →
    (ids.foldl (fun st c => if isEffectActive st c then (disableEffect st c).2 else st)
        s).effects = s.effects ∧
    (ids.foldl (fun st c => if isEffectActive st c then (disableEffect st c).2 else st)
        s).globalIntensity = s.globalIntensity ∧
    (ids.foldl (fun st c => if isEffectActive st c then (disableEffect st c).2 else st)
        s).activeEffects = s.activeEffects.filter (fun p => !(keyInList ids p.1)) ∧
    (ids.foldl (fun st c => if isEffectActive st c then (disableEffect st c).2 else st)
        s).notifications
      = s.notifications + (s.activeEffects.filter (fun p => keyInList ids p.1)).length := by
  induction ids with
  | nil =>
    intro s _
    refine ⟨rfl, rfl, ?_, ?_⟩
    · rw [List.filter_eq_self.mpr (fun p _ => by simp [keyInList])]
      rfl
    · rw [show s.activeEffects.filter (fun p => keyInList [] p.1) = [] from
        List.filter_eq_nil_iff.mpr (fun p _ => by simp [keyInList])]
      simp [List.foldl_nil]
  | cons c cs ih =>
    intro s hnd
    rw [List.foldl_cons]
    by_cases hact : isEffectActive s c = true
    · have hdis : (disableEffect s c).2
          = { s with activeEffects := s.activeEffects.filter (fun p => !(p.1 == c)),
                     notifications := s.notifications + 1 } := by
        unfold disableEffect
        rw [if_pos (show (mapLookup s.activeEffects c).isSome = true from hact)]
        rfl
      rw [if_pos hact, hdis]
      obtain ⟨ha, hb, hcod, hd⟩ := ih
        { s with activeEffects := s.activeEffects.filter (fun p => !(p.1 == c)),
                 notifications := s.notifications + 1 }
        (nodup_keys_filter s.activeEffects _ hnd)
      refine ⟨ha, hb, ?_, ?_⟩
      · rw [hcod]
        dsimp only
        rw [List.filter_filter]
        exact List.filter_congr (fun p _ => by
          simp only [keyInList, List.any_cons, Bool.not_or]
          rw [Bool.and_comm, string_beq_comm])
      · have hcmem : c ∈ s.activeEffects.map Prod.fst := by
          unfold isEffectActive at hact
          exact (mapLookup_isSome_iff s.activeEffects c).mp hact
        have hcount : (s.activeEffects.filter
              (fun p => (c == p.1) || keyInList cs p.1)).length
            = 1 + ((s.activeEffects.filter (fun p => !(p.1 == c))).filter
                (fun p => keyInList cs p.1)).length :=
          filter_key_cons_count s.activeEffects c (fun k => keyInList cs k) hnd hcmem
        have hshape : s.activeEffects.filter (fun p => keyInList (c :: cs) p.1)
            = s.activeEffects.filter (fun p => (c == p.1) || keyInList cs p.1) :=
          List.filter_congr (fun p _ => by simp [keyInList])
        rw [hd]
        show s.notifications + 1
            + ((s.activeEffects.filter (fun p => !(p.1 == c))).filter
                (fun p => keyInList cs p.1)).length
          = s.notifications
            + (s.activeEffects.filter (fun p => keyInList (c :: cs) p.1)).length
        rw [hshape, hcount]
        omega
    · rw [if_neg hact]
      obtain ⟨ha, hb, hcod, hd⟩ := ih s hnd
      have hnotc : ∀ p ∈ s.activeEffects, (c == p.1) = false := by
        intro p hp
        have hne : p.1 ≠ c := by
          intro hpc
          apply hact
          unfold isEffectActive
          rw [mapLookup_isSome_iff s.activeEffects c]
          exact List.mem_map.mpr ⟨p, hp, hpc⟩
        simp [show ¬ (c = p.1) from fun h => hne h.symm]
      refine ⟨ha, hb, ?_, ?_⟩
      · rw [hcod]
        exact List.filter_congr (fun p hp => by
          simp [keyInList, List.any_cons, hnotc p hp])
      · rw [hd]
        have hsame : s.activeEffects.filter (fun p => keyInList (c :: cs) p.1)
            = s.activeEffects.filter (fun p => keyInList cs p.1) :=
          List.filter_congr (fun p hp => by
            simp [keyInList, List.any_cons, hnotc p hp])
        rw [hsame]

/-- **C2 counterexample.** With `glow` active and `strobe` declaring a
conflict with `glow`, `enableEffect("strobe")` triggers two listener
fan-outs (one for the cascaded disable of `glow`, one for the enable),
not exactly one. -/
theorem enableEffect_notifications_cex :
    conflictDemo.notifications = 1 ∧
    isEffectActive conflictDemo "glow" = true ∧
    (enableEffect conflictDemo "strobe" 1 0).2.notifications
      = conflictDemo.notifications + 2 := by
  exact ⟨rfl, rfl, rfl⟩

/-- **C2** (amended).  When `enableEffect(e)` succeeds on an effect with
satisfied dependencies it first disables each currently active effect in
`e.conflictsWith` — single-level: entries outside the conflict list are
left exactly as they were, without re-checking their own conflicts —
then activates `e`; subscribers receive one notification per cascaded
disable plus one final notification for the enable, i.e.
`1 + (number of active conflicting effects)` fan-outs per call, not
exactly one. -/
theorem enableEffect_conflict_cascade (s : EffectManager) (id : String) (i now : ℚ)
    (e : Effect)
    (he : mapLookup s.effects id = some e)
    (hdeps : e.dependencies.filter (fun dep => !(isEffectActive s dep)) = [])
    (hnd : (s.activeEffects.map Prod.fst).Nodup) :
    (enableEffect s id i now).1 = true ∧
    (∀ k, k ≠ id →
      mapLookup (enableEffect s id i now).2.activeEffects k
        = if keyInList e.conflictsWith k then none else mapLookup s.activeEffects k) ∧
    mapLookup (enableEffect s id i now).2.activeEffects id
      = some ⟨e, true, clamp02 i, e.parameters, now⟩ ∧
    (enableEffect s id i now).2.notifications
      = s.notifications
        + (s.activeEffects.filter (fun p => keyInList e.conflictsWith p.1)).length + 1 := by
  obtain ⟨hfe, hfg, hfa, hfn⟩ := conflictFold_spec e.conflictsWith s hnd
  unfold enableEffect
  simp only [he, hdeps]
  rw [if_neg (show ¬ (([] : List String).length > 0) by simp)]
  refine ⟨rfl, ?_, ?_, ?_⟩
  · intro k hk
    simp only [notifyListeners]
    have hlp : mapLookup (s.activeEffects.filter
          (fun p => !(keyInList e.conflictsWith p.1))) k
        = if (!(keyInList e.conflictsWith k)) = true
          then mapLookup s.activeEffects k else none :=
      mapLookup_filter_keyPred s.activeEffects
        (fun k0 => !(keyInList e.conflictsWith k0)) k
    rw [mapLookup_mapSet_of_ne _ _ _ _ hk, hfa, hlp]
    cases hkc : keyInList e.conflictsWith k <;> simp [hkc]
  · simp only [notifyListeners]
    exact mapLookup_mapSet_self _ _ _
  · simp only [notifyListeners]
    rw [hfn]

/-- Witness for the amended C2: enabling `strobe` over an active `glow`
succeeds, removes `glow`, installs `strobe`, and performs exactly two
listener fan-outs (one disable, one enable). -/
theorem enableEffect_conflict_cascade_witness :
    (enableEffect conflictDemo "strobe" 1 0).1 = true ∧
    mapLookup (enableEffect conflictDemo "strobe" 1 0).2.activeEffects "glow" = none ∧
    (enableEffect conflictDemo "strobe" 1 0).2.notifications
      = conflictDemo.notifications + 1 + 1 := by
  have hnd : (conflictDemo.activeEffects.map Prod.fst).Nodup := by
    rw [show conflictDemo.activeEffects.map Prod.fst = ["glow"] from rfl]
    exact List.nodup_singleton _
  have h := enableEffect_conflict_cascade conflictDemo "strobe" 1 0 strobeEffect
    (by rfl) (by rfl) hnd
  have h2 := h.2.1 "glow" (by decide)
  rw [show keyInList strobeEffect.conflictsWith "glow" = true from rfl] at h2
  have h4 := h.2.2.2
  rw [show (conflictDemo.activeEffects.filter
      (fun p => keyInList strobeEffect.conflictsWith p.1)).length = 1 from rfl] at h4
  exact ⟨h.1, by simpa using h2, h4⟩

/-- Witness for C10: after enabling `fire` and overriding its
`temperature` parameter, re-enabling at intensity 1.5 resets the bag to
the catalog defaults and stores the clamped intensity. -/
theorem enableEffect_reenable_resets_witness :
    (enableEffect fireOverridden "fire" (3/2) 7).1 = true ∧
    mapLookup (enableEffect fireOverridden "fire" (3/2) 7).2.activeEffects "fire"
      = some ⟨fireEffect, true, clamp02 (3/2), fireEffect.parameters, 7⟩ := by
  have h := enableEffect_reenable_resets fireOverridden "fire" (3/2) 7 fireEffect
    ⟨fireEffect, true, clamp02 1,
      bagMerge fireEffect.parameters [("temperature", Val.num 5)], 0⟩
    (by rfl) (by rfl) (by intro d hd; simp [fireEffect] at hd)
  exact h

/-! ### Reachability invariant and the export/import round-trip (C8) -/

lemma clamp02_idem (v : ℚ) : clamp02 (clamp02 v) = clamp02 v := by
  unfold clamp02
  rcases le_total v 0 with h | h <;> rcases le_total 2 v with h2 | h2 <;>
    simp [min_def, max_def] <;> split_ifs <;> linarith

lemma catalog_conflicts_empty :
    ∀ p ∈ initialEffectManager.effects, p.2.conflictsWith = [] := by
  decide

lemma catalog_deps_shape :
    ∀ p ∈ initialEffectManager.effects,
      p.2.dependencies = [] ∨ "audio_context" ∈ p.2.dependencies := by
  decide

lemma catalog_no_audio_context :
    mapLookup initialEffectManager.effects "audio_context" = none := by
  rfl

lemma goodState_initial : GoodState initialEffectManager := by
  refine ⟨rfl, ?_, ?_, ?_⟩
  · show clamp02 1 = 1
    norm_num [clamp02]
  · show (([] : List (String × EffectState)).map Prod.fst).Nodup
    simp
  · intro p hp
    have hempty : initialEffectManager.activeEffects = [] := rfl
    rw [hempty] at hp
    simp at hp

lemma goodState_notify (s : EffectManager) (h : GoodState s) :
    GoodState (notifyListeners s) := h

lemma goodState_disable (s : EffectManager) (id : String) (h : GoodState s) :
    GoodState (disableEffect s id).2 := by
  obtain ⟨h1, h2, h3, h4⟩ := h
  unfold disableEffect
  by_cases hx : (mapLookup s.activeEffects id).isSome = true
  · rw [if_pos hx]
    refine ⟨h1, h2, nodup_keys_filter _ _ h3, ?_⟩
    intro p hp
    exact h4 p (List.mem_of_mem_filter hp)
  · rw [if_neg hx]
    exact ⟨h1, h2, h3, h4⟩

lemma audio_context_inactive (s : EffectManager) (h : GoodState s) :
    isEffectActive s "audio_context" = false := by
  obtain ⟨h1, _, _, h4⟩ := h
  unfold isEffectActive
  cases hl : mapLookup s.activeEffects "audio_context" with
  | none => simp
  | some st =>
    exfalso
    have hmem := mapLookup_mem _ _ _ hl
    have hcat := (h4 _ hmem).1
    rw [catalog_no_audio_context] at hcat
    exact Option.noConfusion hcat

lemma goodState_enable (s : EffectManager) (id : String) (i now : ℚ)
    (h : GoodState s) : GoodState (enableEffect s id i now).2 := by
  obtain ⟨h1, h2, h3, h4⟩ := h
  cases he : mapLookup s.effects id with
  | none =>
    unfold enableEffect
    rw [he]
    exact ⟨h1, h2, h3, h4⟩
  | some e =>
    by_cases hm : (e.dependencies.filter (fun dep => !(isEffectActive s dep))).length > 0
    · unfold enableEffect
      simp only [he]
      rw [if_pos hm]
      exact ⟨h1, h2, h3, h4⟩
    · have hcat : (id, e) ∈ initialEffectManager.effects :=
        mapLookup_mem _ _ _ (h1 ▸ he)
      have hconf : e.conflictsWith = [] := catalog_conflicts_empty (id, e) hcat
      have hdeps0 : e.dependencies = [] := by
        rcases catalog_deps_shape (id, e) hcat with h0 | hac
        · exact h0
        · exfalso
          apply hm
          have hinact : isEffectActive s "audio_context" = false :=
            audio_context_inactive s ⟨h1, h2, h3, h4⟩
          have hmem : "audio_context"
              ∈ e.dependencies.filter (fun dep => !(isEffectActive s dep)) :=
            List.mem_filter.mpr ⟨hac, by simp [hinact]⟩
          exact List.length_pos.mpr (List.ne_nil_of_mem hmem)
      unfold enableEffect
      simp only [he]
      rw [if_neg hm, hconf]
      simp only [List.foldl_nil]
      refine ⟨h1, h2, nodup_keys_mapSet _ _ _ h3, ?_⟩
      intro p hp
      rcases mem_mapSet _ _ _ _ hp with rfl | hmem
      · refine ⟨?_, hdeps0, clamp02_idem i, bagKeysSub_refl _⟩
        rw [← h1]
        exact he
      · exact h4 p hmem

lemma goodState_setIntensity (s : EffectManager) (id : String) (v now : ℚ)
    (h : GoodState s) : GoodState (setEffectIntensity s id v now).2 := by
  obtain ⟨h1, h2, h3, h4⟩ := h
  unfold setEffectIntensity
  cases hl : mapLookup s.activeEffects id with
  | none => exact ⟨h1, h2, h3, h4⟩
  | some st =>
    have hentry := h4 _ (mapLookup_mem _ _ _ hl)
    refine ⟨h1, h2, nodup_keys_mapSet _ _ _ h3, ?_⟩
    intro p hp
    rcases mem_mapSet _ _ _ _ hp with rfl | hmem
    · exact ⟨hentry.1, hentry.2.1, clamp02_idem v, hentry.2.2.2⟩
    · exact h4 p hmem

lemma goodState_setParams (s : EffectManager) (id : String)
    (params : List (String × Val)) (now : ℚ) (h : GoodState s) :
    GoodState (setEffectParameters s id params now).2 := by
  obtain ⟨h1, h2, h3, h4⟩ := h
  unfold setEffectParameters
  cases hl : mapLookup s.activeEffects id with
  | none => exact ⟨h1, h2, h3, h4⟩
  | some st =>
    have hentry := h4 _ (mapLookup_mem _ _ _ hl)
    refine ⟨h1, h2, nodup_keys_mapSet _ _ _ h3, ?_⟩
    intro p hp
    rcases mem_mapSet _ _ _ _ hp with rfl | hmem
    · exact ⟨hentry.1, hentry.2.1, hentry.2.2.1,
        bagKeysSub_merge _ _ _ hentry.2.2.2⟩
    · exact h4 p hmem

lemma goodState_setGlobal (s : EffectManager) (v : ℚ) (h : GoodState s) :
    GoodState (setGlobalIntensity s v) := by
  obtain ⟨h1, h2, h3, h4⟩ := h
  exact ⟨h1, clamp02_idem v, h3, h4⟩

lemma goodState_disableAll (s : EffectManager) (h : GoodState s) :
    GoodState (disableAllEffects s) := by
  obtain ⟨h1, h2, h3, h4⟩ := h
  refine ⟨h1, h2, ?_, ?_⟩
  · show (([] : List (String × EffectState)).map Prod.fst).Nodup
    simp
  · intro p hp
    have hp0 : p ∈ ([] : List (String × EffectState)) := hp
    simp at hp0

lemma goodState_toggle (s : EffectManager) (id : String) (i : Option ℚ) (now : ℚ)
    (h : GoodState s) : GoodState (toggleEffect s id i now).2 := by
  unfold toggleEffect
  by_cases hx : isEffectActive s id = true
  · rw [if_pos hx]
    exact goodState_disable s id h
  · rw [if_neg hx]
    exact goodState_enable s id (i.getD 1) now h

lemma goodState_foldl {β : Type} (f : EffectManager → β → EffectManager)
    (hf : ∀ t b, GoodState t → GoodState (f t b)) :
    ∀ (l : List β) (s : EffectManager), GoodState s → GoodState (l.foldl f s) := by
  intro l
  induction l with
  | nil => intro s h; simpa using h
  | cons b bs ih =>
    intro s h
    rw [List.foldl_cons]
    exact ih (f s b) (hf s b h)

lemma goodState_enableAll (s : EffectManager) (now : ℚ) (h : GoodState s) :
    GoodState (enableAllEffects s now) := by
  unfold enableAllEffects
  exact goodState_foldl _ (fun t p ht => goodState_enable t p.1 1 now ht) _ s h

lemma goodState_applyRecommended (s : EffectManager) (t : Impact) (now : ℚ)
    (h : GoodState s) : GoodState (applyRecommendedSettings s t now) := by
  unfold applyRecommendedSettings
  exact goodState_foldl _ (fun u id hu => goodState_enable u id 1 now hu) _ _
    (goodState_disableAll s h)

lemma goodState_importEntry (now : ℚ) (t : EffectManager)
    (p : String × EffectConfigEntry) (h : GoodState t) :
    GoodState (importEntry now t p) := by
  have hen := goodState_enable t p.1 p.2.intensity now h
  show GoodState
    (if (enableEffect t p.1 p.2.intensity now).1 = true then
      match p.2.parameters with
      | some params =>
        (setEffectParameters (enableEffect t p.1 p.2.intensity now).2 p.1 params now).2
      | none => (enableEffect t p.1 p.2.intensity now).2
    else (enableEffect t p.1 p.2.intensity now).2)
  by_cases hres : (enableEffect t p.1 p.2.intensity now).1 = true
  · rw [if_pos hres]
    cases hp : p.2.parameters with
    | none => exact hen
    | some params => exact goodState_setParams _ _ _ _ hen
  · rw [if_neg hres]
    exact hen

lemma goodState_importCfg (s : EffectManager) (c : EffectConfiguration) (now : ℚ)
    (h : GoodState s) : GoodState (importConfiguration s c now) := by
  unfold importConfiguration
  have h1 := goodState_disableAll s h
  cases hg : c.globalIntensity with
  | none =>
    cases ha : c.activeEffects with
    | none => exact h1
    | some entries => exact goodState_foldl _ (goodState_importEntry now) _ _ h1
  | some g =>
    have h2 := goodState_setGlobal _ g h1
    cases ha : c.activeEffects with
    | none => exact h2
    | some entries => exact goodState_foldl _ (goodState_importEntry now) _ _ h2

lemma goodState_applyOp (s : EffectManager) (op : EffectOp) (h : GoodState s) :
    GoodState (applyOp s op) := by
  cases op with
  | enable id i now => exact goodState_enable s id i now h
  | disable id => exact goodState_disable s id h
  | toggle id i now => exact goodState_toggle s id i now h
  | setIntensity id v now => exact goodState_setIntensity s id v now h
  | setParams id p now => exact goodState_setParams s id p now h
  | setGlobal v => exact goodState_setGlobal s v h
  | enableAll now => exact goodState_enableAll s now h
  | disableAll => exact goodState_disableAll s h
  | applyRecommended t now => exact goodState_applyRecommended s t now h
  | importCfg c now => exact goodState_importCfg s c now h

lemma reachable_goodState (s : EffectManager) (h : Reachable s) : GoodState s := by
  obtain ⟨ops, rfl⟩ := h
  unfold runOps
  exact goodState_foldl applyOp goodState_applyOp ops initialEffectManager goodState_initial

lemma import_enable_eq (t : EffectManager) (p : String × EffectState) (now : ℚ)
    (ht : t.effects = initialEffectManager.effects)
    (hcat : mapLookup initialEffectManager.effects p.1 = some p.2.effect)
    (hdeps0 : p.2.effect.dependencies = [])
    (hfresh : mapLookup t.activeEffects p.1 = none) :
    enableEffect t p.1 p.2.intensity now
      = (true, notifyListeners { t with activeEffects := t.activeEffects
          ++ [(p.1, enabledState p.2.effect p.2.intensity now)] }) := by
  have hlk : mapLookup t.effects p.1 = some p.2.effect := by rw [ht]; exact hcat
  have hconf : p.2.effect.conflictsWith = [] :=
    catalog_conflicts_empty _ (mapLookup_mem _ _ _ hcat)
  unfold enableEffect
  simp only [hlk, hdeps0]
  rw [if_neg (by simp)]
  rw [hconf]
  simp only [List.foldl_nil]
  rw [mapSet_of_not_mem _ _ _ ((mapLookup_none_iff _ _).mp hfresh)]
  rfl

lemma import_setParams_eq (u : EffectManager) (k : String) (st st2 : EffectState)
    (params : List (String × Val)) (now : ℚ)
    (hl : mapLookup u.activeEffects k = some st)
    (hst : st2 = { st with parameters := bagMerge st.parameters params,
                           lastUpdate := now }) :
    setEffectParameters u k params now
      = (true, notifyListeners
          { u with activeEffects := mapSet u.activeEffects k st2 }) := by
  subst hst
  unfold setEffectParameters
  simp only [hl]

lemma import_fold_core (now : ℚ) :
    ∀ (rest : List (String × EffectState)) (t : EffectManager),
    t.effects = initialEffectManager.effects →
    (∀ p ∈ rest, GoodEntry p) →
    (rest.map Prod.fst).Nodup →
    (∀ p ∈ rest, mapLookup t.activeEffects p.1 = none) →
    (rest.map (fun p =>
        (p.1, (⟨p.2.intensity, some p.2.parameters⟩ : EffectConfigEntry)))).foldl
      (importEntry now) t
      = { t with
          activeEffects := t.activeEffects
            ++ rest.map (fun q => (q.1, importedState now q)),
          notifications := t.notifications + 2 * rest.length } := by
  intro rest
  induction rest with
  | nil =>
    intro t _ _ _ _
    cases t
    simp
  | cons p ps ih =>
    intro t ht hgood hnd hfresh
    obtain ⟨hcat, hdeps0, hclamp, hsub⟩ := hgood p (List.mem_cons_self p ps)
    have hfp := hfresh p (List.mem_cons_self p ps)
    have hkeys : p.1 ∉ t.activeEffects.map Prod.fst := (mapLookup_none_iff _ _).mp hfp
    have hen := import_enable_eq t p now ht hcat hdeps0 hfp
    have h1 : (enableEffect t p.1 p.2.intensity now).1 = true := by rw [hen]
    have hen2 : (enableEffect t p.1 p.2.intensity now).2
        = notifyListeners { t with activeEffects := t.activeEffects
            ++ [(p.1, enabledState p.2.effect p.2.intensity now)] } := by
      rw [hen]
    have hstep : importEntry now t (p.1, ⟨p.2.intensity, some p.2.parameters⟩)
        = (setEffectParameters (enableEffect t p.1 p.2.intensity now).2 p.1
            p.2.parameters now).2 := by
      show (if (enableEffect t p.1 p.2.intensity now).1 = true then
          match (some p.2.parameters : Option (List (String × Val))) with
          | some params =>
            (setEffectParameters (enableEffect t p.1 p.2.intensity now).2 p.1
              params now).2
          | none => (enableEffect t p.1 p.2.intensity now).2
        else (enableEffect t p.1 p.2.intensity now).2)
        = (setEffectParameters (enableEffect t p.1 p.2.intensity now).2 p.1
            p.2.parameters now).2
      rw [if_pos h1]
    have hl2 : mapLookup (notifyListeners { t with activeEffects := t.activeEffects
          ++ [(p.1, enabledState p.2.effect p.2.intensity now)] }).activeEffects p.1
        = some (enabledState p.2.effect p.2.intensity now) := by
      show mapLookup (t.activeEffects
          ++ [(p.1, enabledState p.2.effect p.2.intensity now)]) p.1 = _
      rw [mapLookup_append_of_none _ _ _ hfp, mapLookup_cons, if_pos rfl]
    have hset := import_setParams_eq _ p.1
      (enabledState p.2.effect p.2.intensity now) (importedState now p)
      p.2.parameters now hl2 (by rfl)
    have hT : (setEffectParameters (enableEffect t p.1 p.2.intensity now).2 p.1
          p.2.parameters now).2
        = { t with
            activeEffects := t.activeEffects ++ [(p.1, importedState now p)],
            notifications := t.notifications + 2 } := by
      rw [hen2, hset]
      show ({ effects := t.effects,
              activeEffects := mapSet
                (t.activeEffects ++ [(p.1, enabledState p.2.effect p.2.intensity now)])
                p.1 (importedState now p),
              globalIntensity := t.globalIntensity,
              notifications := t.notifications + 1 + 1 } : EffectManager)
        = ({ t with
            activeEffects := t.activeEffects ++ [(p.1, importedState now p)],
            notifications := t.notifications + 2 } : EffectManager)
      rw [mapSet_append_self _ _ _ _ hkeys]
    rw [List.map_cons, List.foldl_cons, hstep, hT]
    have hfresh' : ∀ q ∈ ps,
        mapLookup ({ t with
            activeEffects := t.activeEffects ++ [(p.1, importedState now p)],
            notifications := t.notifications + 2 } : EffectManager).activeEffects q.1
          = none := by
      intro q hq
      show mapLookup (t.activeEffects ++ [(p.1, importedState now p)]) q.1 = none
      rw [mapLookup_append_of_none _ _ _ (hfresh q (List.mem_cons_of_mem p hq)),
        mapLookup_cons]
      rw [List.map_cons, List.nodup_cons] at hnd
      rw [if_neg (show ¬ (p.1 = q.1) from fun hqp =>
        hnd.1 (by rw [hqp]; exact List.mem_map.mpr ⟨q, hq, rfl⟩))]
      rfl
    have hrec := ih
      { t with
          activeEffects := t.activeEffects ++ [(p.1, importedState now p)],
          notifications := t.notifications + 2 }
      ht (fun q hq => hgood q (List.mem_cons_of_mem p hq))
      (by rw [List.map_cons, List.nodup_cons] at hnd; exact hnd.2)
      hfresh'
    rw [hrec]
    show ({ effects := t.effects,
            activeEffects := (t.activeEffects ++ [(p.1, importedState now p)])
              ++ ps.map (fun q => (q.1, importedState now q)),
            globalIntensity := t.globalIntensity,
            notifications := t.notifications + 2 + 2 * ps.length } : EffectManager) = _
    rw [List.append_assoc]
    show ({ effects := t.effects,
            activeEffects := t.activeEffects
              ++ ((p.1, importedState now p) :: ps.map (fun q => (q.1, importedState now q))),
            globalIntensity := t.globalIntensity,
            notifications := t.notifications + 2 + 2 * ps.length } : EffectManager) = _
    have hnot : t.notifications + 2 + 2 * ps.length
        = t.notifications + 2 * (p :: ps).length := by
      simp [List.length_cons]
      ring
    rw [hnot]
    rfl

/-- **C8.** For every reachable registry state, importing the exported
configuration restores the same global intensity, the same active effect
ids in the same order, the same per-effect intensities, and parameter
bags with the same key-value contents. -/
theorem exportImport_roundTrip (s : EffectManager) (hs : Reachable s) (now : ℚ) :
    (importConfiguration s (exportConfiguration s) now).globalIntensity
      = s.globalIntensity ∧
    (importConfiguration s (exportConfiguration s) now).activeEffects.map Prod.fst
      = s.activeEffects.map Prod.fst ∧
    (∀ id, (mapLookup (importConfiguration s (exportConfiguration s) now).activeEffects
        id).map EffectState.intensity
      = (mapLookup s.activeEffects id).map EffectState.intensity) ∧
    (∀ id k, (mapLookup (importConfiguration s (exportConfiguration s) now).activeEffects
        id).map (fun st => bagLookup st.parameters k)
      = (mapLookup s.activeEffects id).map (fun st => bagLookup st.parameters k)) := by
  obtain ⟨hge, hgg, hgn, hgood⟩ := reachable_goodState s hs
  have himp : importConfiguration s (exportConfiguration s) now
      = { s with
          activeEffects := s.activeEffects.map (fun q => (q.1, importedState now q)),
          globalIntensity := clamp02 s.globalIntensity,
          notifications := s.notifications + 2 + 2 * s.activeEffects.length } := by
    show (s.activeEffects.map (fun p =>
        (p.1, (⟨p.2.intensity, some p.2.parameters⟩ : EffectConfigEntry)))).foldl
        (importEntry now)
        (setGlobalIntensity (disableAllEffects s) s.globalIntensity) = _
    have hsg : setGlobalIntensity (disableAllEffects s) s.globalIntensity
        = ({ s with
              activeEffects := [],
              globalIntensity := clamp02 s.globalIntensity,
              notifications := s.notifications + 2 } : EffectManager) := rfl
    rw [hsg, import_fold_core now s.activeEffects
      ({ s with
          activeEffects := [],
          globalIntensity := clamp02 s.globalIntensity,
          notifications := s.notifications + 2 } : EffectManager)
      hge hgood hgn (fun p _ => rfl)]
    rfl
  refine ⟨?_, ?_, ?_, ?_⟩
  · rw [himp]
    exact hgg
  · rw [himp]
    show (s.activeEffects.map (fun q => (q.1, importedState now q))).map Prod.fst
      = s.activeEffects.map Prod.fst
    rw [List.map_map]
    rfl
  · intro id
    rw [himp]
    show (mapLookup (s.activeEffects.map (fun q => (q.1, importedState now q))) id).map
        EffectState.intensity
      = (mapLookup s.activeEffects id).map EffectState.intensity
    rw [mapLookup_map_entries s.activeEffects (fun q => importedState now q) id,
      show mapLookup s.activeEffects id
        = (s.activeEffects.find? (fun q => q.1 == id)).map Prod.snd from rfl]
    cases hf : s.activeEffects.find? (fun q => q.1 == id) with
    | none => rfl
    | some q =>
      have hgq := hgood q (List.mem_of_find?_eq_some hf)
      simp [importedState, hgq.2.2.1]
  · intro id k
    rw [himp]
    show (mapLookup (s.activeEffects.map (fun q => (q.1, importedState now q))) id).map
        (fun st => bagLookup st.parameters k)
      = (mapLookup s.activeEffects id).map (fun st => bagLookup st.parameters k)
    rw [mapLookup_map_entries s.activeEffects (fun q => importedState now q) id,
      show mapLookup s.activeEffects id
        = (s.activeEffects.find? (fun q => q.1 == id)).map Prod.snd from rfl]
    cases hf : s.activeEffects.find? (fun q => q.1 == id) with
    | none => rfl
    | some q =>
      have hgq := hgood q (List.mem_of_find?_eq_some hf)
      show some (bagLookup (importedState now q).parameters k)
        = some (bagLookup q.2.parameters k)
      rw [show (importedState now q).parameters
          = bagMerge q.2.effect.parameters q.2.parameters from rfl,
        bagLookup_merge_of_sub _ _ hgq.2.2.2 k]

/-- Witness for C8 at a concrete reachable state: a fresh manager with
`fire` enabled at intensity 1.5 round-trips its global intensity and its
active id list through export followed by import. -/
theorem exportImport_roundTrip_witness :
    (importConfiguration demoState (exportConfiguration demoState) 5).globalIntensity
      = demoState.globalIntensity ∧
    (importConfiguration demoState (exportConfiguration demoState) 5).activeEffects.map
        Prod.fst
      = demoState.activeEffects.map Prod.fst ∧
    (mapLookup (importConfiguration demoState (exportConfiguration demoState) 5).activeEffects
        "fire").map EffectState.intensity
      = (mapLookup demoState.activeEffects "fire").map EffectState.intensity := by
  have h := exportImport_roundTrip demoState ⟨[EffectOp.enable "fire" (3/2) 0], rfl⟩ 5
  exact ⟨h.1, h.2.1, h.2.2.1 "fire"⟩

end EffectManager

end Animation

